import Mathlib

/-!
# mcp-taskflow — Workflow State & Compliance Engine, shallow embedding

This file embeds the core of the mcp-taskflow repository in Lean 4 and
proves (or refutes) the specification claims about it.

Embedded source:
* the enhanced task status handler (`updateTaskStatus`), translated from
  the tool handler in `src/unnamed/part_004` (the enhanced version of
  `src/tools/application/update-task-status.ts`);
* the enhanced feature status handler (`updateFeatureStatus`), from the
  first handler in `src/tools/application/update-feature-status.ts`;
* the database layer relevant to those handlers: the `update_status_tracking`
  trigger and the check/foreign-key constraints of
  `supabase/migrations/20240317_enhanced_status_system.sql`;
* the session compliance subsystem: `validateSession`, `checkpointNeeded`,
  `verifyScopeCompliance` from `src/utils/validation.ts`, the
  `recordFileChange` handler from `src/tools/tracking/record-file-change.ts`,
  the `createSnapshot` handler from `src/tools/tracking/index.ts`, the
  `createProgressCheckpoint` handler from `src/tools/index.ts`, the
  `logDecision` handler from `src/unnamed/part_010`, and the
  `endSession` handler from `src/tools/session/end-session.ts`
  (the enhanced version that sets `status = "completed"`).

Conventions of the embedding:
* timestamps are `Nat` milliseconds (JS `Date.now()` scale);
* a nullable database column is `Option _` whose `none` is SQL/JS `null`;
* an optional tool parameter is `Option _` whose `none` is JS `undefined`;
  JS strict equality `===` between a column value and a parameter is
  modelled by `jsStrictEq` below (`null === undefined` is `false`);
* JS truthiness of an optional string (`!x`) is `jsFalsy` (both `undefined`
  and the empty string are falsy);
* store reads/writes are explicit state passing over lists of rows; the
  store itself is assumed available (infrastructure failures other than
  constraint violations are not modelled);
* each handler returns an inductive result whose constructors correspond
  one-to-one to the `createResponse` call sites of the source handler.
-/

/-- JS truthiness test for an optional string parameter: `!x` is true for
`undefined` and for the empty string. -/
def jsFalsy : Option String → Bool
  | none => true
  | some s => s.isEmpty

/-- JS strict equality `===` between a nullable DB column value (`none` =
SQL `null`) and an optional request parameter (`none` = JS `undefined`).
`null === undefined` is `false` in JS, so two `none`s do not match. -/
def jsStrictEq : Option String → Option String → Bool
  | some a, some b => a == b
  | _, _ => false

/-- Task status enum, from `CREATE TYPE task_status` in
`20240317_enhanced_status_system.sql` (same value set as the zod enum of
`schemas.application.updateTaskStatus`). -/
inductive TaskStatus
  | backlog | ready | blocked | on_hold | in_progress | in_review
  | needs_revision | completed | wont_do | abandoned | archived
deriving DecidableEq, Repr

/-- Feature status enum, from `CREATE TYPE feature_status`. -/
inductive FeatureStatus
  | planned | backlog | ready | in_progress | blocked | on_hold
  | in_review | completed | wont_do | abandoned | archived
deriving DecidableEq, Repr

/-- One `status_history` entry, from `CREATE TYPE status_history_entry`
(status, changed_at, changed_by, reason). `α` is the status enum of the
owning entity. -/
structure HistoryEntry (α : Type) where
  status : α
  changed_at : Nat
  changed_by : String
  reason : String
deriving DecidableEq, Repr

/-- A row of the `tasks` table (the columns the embedded code touches). -/
structure TaskRow where
  id : String
  feature_id : Option String
  name : String
  status : TaskStatus
  blocking_reason : Option String
  blocked_by_id : Option String
  status_updated_at : Nat
  status_history : List (HistoryEntry TaskStatus)
  updated_at : Nat
deriving DecidableEq, Repr

/-- A row of the `features` table. -/
structure FeatureRow where
  id : String
  application_id : Option String
  name : String
  status : FeatureStatus
  blocking_reason : Option String
  blocked_by_id : Option String
  status_updated_at : Nat
  status_history : List (HistoryEntry FeatureStatus)
  updated_at : Nat
deriving DecidableEq, Repr

/-- The `update_status_tracking` trigger (`BEFORE UPDATE OF status`), for the
`tasks` table: when and only when the status value changed, bump
`status_updated_at` to `now()` and prepend one history entry
`{status: NEW.status, changed_at: now, changed_by: current_user,
reason: COALESCE(NEW.blocking_reason, 'Status updated')}`. -/
def applyTaskTrigger (old new : TaskRow) (now : Nat) (user : String) : TaskRow :=
  if old.status ≠ new.status then
    { new with
      status_updated_at := now
      status_history :=
        { status := new.status, changed_at := now, changed_by := user
          reason := new.blocking_reason.getD "Status updated" } :: old.status_history }
  else new

/-- The same trigger attached to the `features` table. -/
def applyFeatureTrigger (old new : FeatureRow) (now : Nat) (user : String) : FeatureRow :=
  if old.status ≠ new.status then
    { new with
      status_updated_at := now
      status_history :=
        { status := new.status, changed_at := now, changed_by := user
          reason := new.blocking_reason.getD "Status updated" } :: old.status_history }
  else new

/-- Table constraints on a `tasks` row, from the migration:
`tasks_no_self_blocking CHECK (id != blocked_by_id)` (SQL `NULL` check passes),
`tasks_blocking_requires_reason` (both blocking fields null or both set), and
the foreign key `blocked_by_id REFERENCES tasks(id)` (checked against the
post-update table). -/
def taskConstraintsOk (table : List TaskRow) (r : TaskRow) : Bool :=
  (match r.blocked_by_id with
   | none => true
   | some b => b != r.id && (table.find? (fun t => t.id == b)).isSome) &&
  (r.blocking_reason.isSome == r.blocked_by_id.isSome)

/-- Constraints on a `features` row (`features_no_self_blocking`,
`features_blocking_requires_reason`, `blocked_by_id REFERENCES features(id)`). -/
def featureConstraintsOk (table : List FeatureRow) (r : FeatureRow) : Bool :=
  (match r.blocked_by_id with
   | none => true
   | some b => b != r.id && (table.find? (fun f => f.id == b)).isSome) &&
  (r.blocking_reason.isSome == r.blocked_by_id.isSome)

/-- `UPDATE tasks SET ... WHERE id = taskId`: replace every row matching the
id (ids are unique keys, so at most one). -/
def setTaskRow (table : List TaskRow) (taskId : String) (r : TaskRow) : List TaskRow :=
  table.map fun t => if t.id == taskId then r else t

/-- `UPDATE features SET ... WHERE id = featureId`. -/
def setFeatureRow (table : List FeatureRow) (featureId : String) (r : FeatureRow) : List FeatureRow :=
  table.map fun f => if f.id == featureId then r else f

/-- The store-side semantics of the handler's
`supabase.from("tasks").update(updateData).eq("id", taskId).select().single()`:
fire the `BEFORE UPDATE OF status` trigger on the matched row, then enforce
the table constraints; `none` is the error result (no row matched `.single()`,
or a constraint violation — either way the statement changes nothing). -/
def dbUpdateTask (table : List TaskRow) (taskId : String) (upd : TaskRow → TaskRow)
    (now : Nat) (user : String) : Option (List TaskRow × TaskRow) :=
  match table.find? (fun t => t.id == taskId) with
  | none => none
  | some old =>
    let newRow := applyTaskTrigger old (upd old) now user
    let newTable := setTaskRow table taskId newRow
    if taskConstraintsOk newTable newRow then some (newTable, newRow) else none

/-- Store-side semantics of the feature update statement. -/
def dbUpdateFeature (table : List FeatureRow) (featureId : String) (upd : FeatureRow → FeatureRow)
    (now : Nat) (user : String) : Option (List FeatureRow × FeatureRow) :=
  match table.find? (fun f => f.id == featureId) with
  | none => none
  | some old =>
    let newRow := applyFeatureTrigger old (upd old) now user
    let newTable := setFeatureRow table featureId newRow
    if featureConstraintsOk newTable newRow then some (newTable, newRow) else none

/-- Parameters of the `updateTaskStatus` tool
(`schemas.application.updateTaskStatus`): `blockingReason` and `blockedById`
are `z.string().optional()` — absent means JS `undefined`, never `null`. -/
structure UpdateTaskParams where
  taskId : String
  status : TaskStatus
  blockingReason : Option String := none
  blockedById : Option String := none
deriving DecidableEq, Repr

/-- Parameters of the `updateFeatureStatus` tool. -/
structure UpdateFeatureParams where
  featureId : String
  status : FeatureStatus
  blockingReason : Option String := none
  blockedById : Option String := none
deriving DecidableEq, Repr

/-- Result of the `updateTaskStatus` handler; one constructor per
`createResponse` call site of the handler in `src/unnamed/part_004`
(store-read failures other than the update statement are not modelled). -/
inductive TaskUpdateResult
  /-- "Task with ID ... does not exist" (success flag `false`). -/
  | taskNotFound
  /-- "Blocking reason and blocked by ID are required when setting status to
  'blocked'" (success flag `false`). -/
  | missingBlockingInfo
  /-- "Blocking task with ID ... does not exist" (success flag `false`). -/
  | blockingTaskNotFound
  /-- "Task Status Already Current" (success flag `true`). -/
  | alreadyCurrent
  /-- "Error updating task status: ..." — the update statement failed, e.g.
  on a check-constraint violation; status remains unchanged (success flag
  `false`). -/
  | updateError
  /-- The `catch` branch: "Failed to update task status: ..." (success flag
  `false`). Reached through the use of `nextActions` before its `let`
  declaration (a temporal-dead-zone `ReferenceError`) in the
  feature-progress block. -/
  | caughtReferenceError
  /-- "Task Status Updated" carrying previous and new status (success flag
  `true`). -/
  | updated (previous new : TaskStatus)
deriving DecidableEq, Repr

/-- The `success` flag the handler passes to `createResponse` for each
result. -/
def TaskUpdateResult.isSuccess : TaskUpdateResult → Bool
  | .alreadyCurrent => true
  | .updated _ _ => true
  | _ => false

/-- Result of the `updateFeatureStatus` handler, one constructor per
`createResponse` call site (this handler has no reachable `catch` path). -/
inductive FeatureUpdateResult
  | featureNotFound
  | missingBlockingInfo
  | blockingFeatureNotFound
  | alreadyCurrent
  | updateError
  | updated (previous new : FeatureStatus)
deriving DecidableEq, Repr

/-- The `success` flag of each `updateFeatureStatus` result. -/
def FeatureUpdateResult.isSuccess : FeatureUpdateResult → Bool
  | .alreadyCurrent => true
  | .updated _ _ => true
  | _ => false

/-- The blocked-status validation of the task handler: when the target
status is `blocked`, `!params.blockingReason || !params.blockedById` fails
with missing-info, and the referenced blocking task must exist. -/
def taskBlockedParamsPresent (p : UpdateTaskParams) : Bool :=
  !(jsFalsy p.blockingReason) && !(jsFalsy p.blockedById)

/-- The blocking-task existence check
(`.from("tasks").select(..).eq("id", params.blockedById).single()`). -/
def blockingTaskExists (table : List TaskRow) (p : UpdateTaskParams) : Bool :=
  match p.blockedById with
  | none => false
  | some b => (table.find? (fun t => t.id == b)).isSome

/-- The handler's already-current check: status equal and both blocking
fields equal under JS `===` (stored `null` never matches an absent
(`undefined`) parameter). -/
def taskAlreadyCurrent (task : TaskRow) (p : UpdateTaskParams) : Bool :=
  task.status == p.status &&
  jsStrictEq task.blocked_by_id p.blockedById &&
  jsStrictEq task.blocking_reason p.blockingReason

/-- The handler's `updateData`: new status, `updated_at = now`, blocking
fields taken from the parameters when the target is `blocked` and cleared to
null otherwise. `status_history`/`status_updated_at` are not part of the
update statement (the trigger owns them). -/
def taskUpdateData (p : UpdateTaskParams) (now : Nat) (t : TaskRow) : TaskRow :=
  { t with
    status := p.status
    updated_at := now
    blocking_reason := if p.status == TaskStatus.blocked then p.blockingReason else none
    blocked_by_id := if p.status == TaskStatus.blocked then p.blockedById else none }

/-- The `updateTaskStatus` tool handler (enhanced version,
`src/unnamed/part_004`), over the `tasks` table, returning the table after
the call and the response. Note the feature-progress block: the source reads
the feature's tasks after the update and, when the requested status is
`completed` and every task of the feature is then `completed`, executes
`nextActions.push(...)` six lines before `let nextActions` is declared —
a temporal-dead-zone `ReferenceError` that lands in the `catch` block
after the update has already been persisted. -/
def updateTaskStatus (tasks : List TaskRow) (p : UpdateTaskParams)
    (now : Nat) (user : String) : List TaskRow × TaskUpdateResult :=
  match tasks.find? (fun t => t.id == p.taskId) with
  | none => (tasks, .taskNotFound)
  | some task =>
    if p.status == TaskStatus.blocked && !(taskBlockedParamsPresent p) then
      (tasks, .missingBlockingInfo)
    else if p.status == TaskStatus.blocked && !(blockingTaskExists tasks p) then
      (tasks, .blockingTaskNotFound)
    else if taskAlreadyCurrent task p then
      (tasks, .alreadyCurrent)
    else
      match dbUpdateTask tasks p.taskId (taskUpdateData p now) now user with
      | none => (tasks, .updateError)
      | some (tasks', _) =>
        match task.feature_id with
        | none => (tasks', .updated task.status p.status)
        | some fid =>
          let featureTasks := tasks'.filter (fun t => t.feature_id == some fid)
          let completedTasks := (featureTasks.filter (fun t => t.status == TaskStatus.completed)).length
          if p.status == TaskStatus.completed && completedTasks == featureTasks.length then
            (tasks', .caughtReferenceError)
          else
            (tasks', .updated task.status p.status)

/-- Feature-side analogues of the task validation helpers. -/
def featureBlockedParamsPresent (p : UpdateFeatureParams) : Bool :=
  !(jsFalsy p.blockingReason) && !(jsFalsy p.blockedById)

/-- The blocking-feature existence check. -/
def blockingFeatureExists (table : List FeatureRow) (p : UpdateFeatureParams) : Bool :=
  match p.blockedById with
  | none => false
  | some b => (table.find? (fun f => f.id == b)).isSome

/-- The feature handler's already-current check (same JS `===` semantics). -/
def featureAlreadyCurrent (feature : FeatureRow) (p : UpdateFeatureParams) : Bool :=
  feature.status == p.status &&
  jsStrictEq feature.blocked_by_id p.blockedById &&
  jsStrictEq feature.blocking_reason p.blockingReason

/-- The feature handler's `updateData`. -/
def featureUpdateData (p : UpdateFeatureParams) (now : Nat) (f : FeatureRow) : FeatureRow :=
  { f with
    status := p.status
    updated_at := now
    blocking_reason := if p.status == FeatureStatus.blocked then p.blockingReason else none
    blocked_by_id := if p.status == FeatureStatus.blocked then p.blockedById else none }

/-- The `updateFeatureStatus` tool handler (enhanced version, first handler
of `src/tools/application/update-feature-status.ts`). Its post-update task
statistics only shape response text, so the handler always reaches the
success response once the update statement succeeds. -/
def updateFeatureStatus (features : List FeatureRow) (p : UpdateFeatureParams)
    (now : Nat) (user : String) : List FeatureRow × FeatureUpdateResult :=
  match features.find? (fun f => f.id == p.featureId) with
  | none => (features, .featureNotFound)
  | some feature =>
    if p.status == FeatureStatus.blocked && !(featureBlockedParamsPresent p) then
      (features, .missingBlockingInfo)
    else if p.status == FeatureStatus.blocked && !(blockingFeatureExists features p) then
      (features, .blockingFeatureNotFound)
    else if featureAlreadyCurrent feature p then
      (features, .alreadyCurrent)
    else
      match dbUpdateFeature features p.featureId (featureUpdateData p now) now user with
      | none => (features, .updateError)
      | some (features', _) => (features', .updated feature.status p.status)

/-- A sequence of `updateTaskStatus` calls (each with its own parameters and
call time), threading the `tasks` table through and collecting results in
call order. -/
def runTaskCalls (user : String) :
    List TaskRow → List (UpdateTaskParams × Nat) → List TaskRow × List TaskUpdateResult
  | tasks, [] => (tasks, [])
  | tasks, c :: rest =>
    let step := updateTaskStatus tasks c.1 c.2 user
    let next := runTaskCalls user step.1 rest
    (next.1, step.2 :: next.2)

/-- A sequence of `updateFeatureStatus` calls. -/
def runFeatureCalls (user : String) :
    List FeatureRow → List (UpdateFeatureParams × Nat) → List FeatureRow × List FeatureUpdateResult
  | features, [] => (features, [])
  | features, c :: rest =>
    let step := updateFeatureStatus features c.1 c.2 user
    let next := runFeatureCalls user step.1 rest
    (next.1, step.2 :: next.2)

/-- A result is a successful update that changed the status value (the
`updated` response carries previous and new status). -/
def isChangingUpdate : TaskUpdateResult → Bool
  | .updated a b => a != b
  | _ => false

/-- Feature-side analogue of `isChangingUpdate`. -/
def isChangingFeatureUpdate : FeatureUpdateResult → Bool
  | .updated a b => a != b
  | _ => false

/-- The history entry the `update_status_tracking` trigger prepends for one
status-changing `updateTaskStatus` call. -/
def taskCallEntry (user : String) (c : UpdateTaskParams × Nat) : HistoryEntry TaskStatus :=
  { status := c.1.status, changed_at := c.2, changed_by := user
    reason := (if c.1.status == TaskStatus.blocked then c.1.blockingReason else none).getD
      "Status updated" }

/-- The history entry for one status-changing `updateFeatureStatus` call. -/
def featureCallEntry (user : String) (c : UpdateFeatureParams × Nat) : HistoryEntry FeatureStatus :=
  { status := c.1.status, changed_at := c.2, changed_by := user
    reason := (if c.1.status == FeatureStatus.blocked then c.1.blockingReason else none).getD
      "Status updated" }

/-! ## Session compliance subsystem -/

/-- Session status (`active | completed | abandoned`). -/
inductive SessionStatus
  | active | completed | abandoned
deriving DecidableEq, Repr

/-- A row of the `sessions` table (columns the embedded code touches). -/
structure SessionRow where
  id : String
  task_id : Option String
  feature_id : Option String
  application_id : Option String
  status : SessionStatus
  start_time : Nat
  end_time : Option Nat
  summary : Option String
  last_checkpoint_at : Option Nat
  last_file_change_at : Option Nat
  last_decision_at : Option Nat
  compliance_score : Nat
deriving DecidableEq, Repr

/-- A row of the `file_changes` table. -/
structure FileChangeRow where
  session_id : String
  file_path : String
  change_type : String
  timestamp : Nat
deriving DecidableEq, Repr

/-- A row of the `checkpoints` table; `session_id` is nullable (the
`createProgressCheckpoint` handler can insert without one). -/
structure CheckpointRow where
  session_id : Option String
  progress : String
  changes_description : String
  current_thinking : String
  next_steps : Option String
deriving DecidableEq, Repr

/-- A row of the `snapshots` table, including the `content_hash` column
added by `20250316_add_content_hash_to_snapshots.sql`. -/
structure SnapshotRow where
  session_id : String
  file_path : String
  content : String
  content_hash : String
deriving DecidableEq, Repr

/-- A row of the `decisions` table (the columns the `logDecision` handler
inserts). -/
structure DecisionRow where
  session_id : String
  description : String
  reasoning : String
  alternatives : Option String
deriving DecidableEq, Repr

/-- A row of the `scope_validations` table. -/
structure ScopeValidationRow where
  session_id : String
  validation_type : String
  result : String
  details : String
  timestamp : Nat
deriving DecidableEq, Repr

/-- The relational store for the session subsystem. -/
structure SessionStore where
  sessions : List SessionRow
  file_changes : List FileChangeRow
  checkpoints : List CheckpointRow
  snapshots : List SnapshotRow
  decisions : List DecisionRow
  scope_validations : List ScopeValidationRow
deriving DecidableEq, Repr

/-- Outcome of `validateSession` (`src/utils/validation.ts`): fails when no
session id is given (JS falsy: the empty string), when the session is not
found, or when its status is not `active`. -/
inductive SessionCheck
  | noSessionId
  | notFound
  | notActive (status : SessionStatus)
  | ok (s : SessionRow)
deriving DecidableEq, Repr

/-- `validateSession` from `src/utils/validation.ts`. -/
def validateSession (sessions : List SessionRow) (sessionId : String) : SessionCheck :=
  if sessionId.isEmpty then .noSessionId
  else
    match sessions.find? (fun s => s.id == sessionId) with
    | none => .notFound
    | some s => if s.status == SessionStatus.active then .ok s else .notActive s.status

/-- `checkpointNeeded` from `src/utils/validation.ts`: measure elapsed time
from `last_checkpoint_at` when set, else from `start_time`; needed when at
least 3 minutes (180000 ms) have elapsed; a missing session yields `true`.
The source computes `(Date.now() - last) / 60000 >= 3` over JS numbers,
which for integer timestamps is exactly `now - last ≥ 180000`. -/
def checkpointNeeded (sessions : List SessionRow) (sessionId : String) (now : Nat) : Bool :=
  match sessions.find? (fun s => s.id == sessionId) with
  | none => true
  | some s =>
    let lastCheckpoint := s.last_checkpoint_at.getD s.start_time
    (now : Int) - lastCheckpoint ≥ 180000

/-- Result of `verifyScopeCompliance`. -/
structure ScopeResult where
  compliant : Bool
  reason : Option String := none
deriving DecidableEq, Repr

/-- `verifyScopeCompliance` from `src/utils/validation.ts`: looks the session
up and, per the source's own comment ("For now, we'll return a simple mock
result"), returns `compliant: true` for every session that exists; the file
path and operation are never consulted. -/
def verifyScopeCompliance (sessions : List SessionRow)
    (sessionId _filePath _operation : String) : ScopeResult :=
  match sessions.find? (fun s => s.id == sessionId) with
  | none => { compliant := false, reason := some "Session not found" }
  | some _ => { compliant := true }

/-- `UPDATE sessions SET ... WHERE id = sessionId`. -/
def setSessionRows (sessions : List SessionRow) (sessionId : String)
    (f : SessionRow → SessionRow) : List SessionRow :=
  sessions.map fun s => if s.id == sessionId then f s else s

/-- Result of the `recordFileChange` handler
(`src/tools/tracking/record-file-change.ts`), one constructor per
`createResponse` call site (the insert-failure branch is not modelled). -/
inductive RecordFileChangeResult
  /-- "INVALID SESSION" (success flag `false`). -/
  | invalidSession (check : SessionCheck)
  /-- "SCOPE VIOLATION DETECTED" (success flag `false`): the file change is
  not recorded. -/
  | scopeViolation
  /-- "FILE ... RECORDED" (success flag `true`), reporting the session's
  compliance score (`session?.compliance_score || 100`: a falsy score of 0
  is reported as 100) and whether a checkpoint is due. -/
  | recorded (complianceScore : Nat) (needsCheckpoint : Bool)
deriving DecidableEq, Repr

/-- The `recordFileChange` handler, parameterised by the scope-compliance
check it consults (the source imports `verifyScopeCompliance` from
`src/utils/validation.ts`; `recordFileChange` below instantiates it).
On violation the source inserts a `scope_validations` row with
result `violation` and then runs
`update({ compliance_score: supabase.rpc('decrement_compliance_score', ...) })`
— it passes the rpc *builder object* as the new column value, and no
`decrement_compliance_score` function exists in any migration, so the broken
update statement fails at the store; its error object is discarded and the
session row keeps its score. The modelled violation branch therefore leaves
`sessions` unchanged. -/
def recordFileChangeWith
    (scope : List SessionRow → String → String → String → ScopeResult)
    (st : SessionStore) (sessionId filePath changeType : String) (now : Nat) :
    SessionStore × RecordFileChangeResult :=
  match validateSession st.sessions sessionId with
  | .ok _ =>
    if (scope st.sessions sessionId filePath changeType).compliant then
      let st1 := { st with
        file_changes := st.file_changes ++
          [({ session_id := sessionId, file_path := filePath
              change_type := changeType, timestamp := now } : FileChangeRow)] }
      let st2 := { st1 with
        sessions := setSessionRows st1.sessions sessionId
          (fun s => { s with last_file_change_at := some now }) }
      let needsCheckpoint := checkpointNeeded st2.sessions sessionId now
      let score :=
        match st2.sessions.find? (fun s => s.id == sessionId) with
        | some s => if s.compliance_score == 0 then 100 else s.compliance_score
        | none => 100
      (st2, .recorded score needsCheckpoint)
    else
      let st1 := { st with
        scope_validations := st.scope_validations ++
          [({ session_id := sessionId, validation_type := "scope_check"
              result := "violation"
              details := "File operation outside scope: " ++ filePath ++ " (" ++ changeType ++ ")"
              timestamp := now } : ScopeValidationRow)] }
      (st1, .scopeViolation)
  | check => (st, .invalidSession check)

/-- The `recordFileChange` handler with its real scope check. -/
def recordFileChange (st : SessionStore) (sessionId filePath changeType : String)
    (now : Nat) : SessionStore × RecordFileChangeResult :=
  recordFileChangeWith verifyScopeCompliance st sessionId filePath changeType now

/-- Parameters of `createProgressCheckpoint` (`src/tools/index.ts`):
`sessionId` and `nextSteps` are `z.string().optional()`. -/
structure CheckpointParams where
  sessionId : Option String := none
  progress : String
  changesDescription : String
  currentThinking : String
  nextSteps : Option String := none
deriving DecidableEq, Repr

/-- Result of the `createProgressCheckpoint` handler. -/
inductive CheckpointResult
  /-- "Checkpoint Creation Failed" from session validation (success flag
  `false`). -/
  | failed (check : SessionCheck)
  /-- "Checkpoint Creation Failed" from the insert statement (e.g. a
  foreign-key violation; success flag `false`). -/
  | insertError
  /-- "Checkpoint Created" (success flag `true`). -/
  | created
deriving DecidableEq, Repr

/-- The `createProgressCheckpoint` handler (`src/tools/index.ts`): the
session is validated only when `params.sessionId` is truthy; the insert uses
the parameter as `session_id` (null when absent). The handler never touches
the `sessions` table — in particular it never writes `last_checkpoint_at`
(no code in the repository ever does). The insert's foreign key
`checkpoints.session_id REFERENCES sessions(id)` is enforced by the store. -/
def createProgressCheckpoint (st : SessionStore) (p : CheckpointParams) :
    SessionStore × CheckpointResult :=
  let insertRow := fun (sid : Option String) =>
    let row : CheckpointRow :=
      { session_id := sid, progress := p.progress
        changes_description := p.changesDescription
        current_thinking := p.currentThinking, next_steps := p.nextSteps }
    match sid with
    | none => ({ st with checkpoints := st.checkpoints ++ [row] }, CheckpointResult.created)
    | some x =>
      if (st.sessions.find? (fun s => s.id == x)).isSome then
        ({ st with checkpoints := st.checkpoints ++ [row] }, CheckpointResult.created)
      else (st, CheckpointResult.insertError)
  if !(jsFalsy p.sessionId) then
    match p.sessionId with
    | some sid =>
      match validateSession st.sessions sid with
      | .ok s => insertRow (some s.id)
      | check => (st, .failed check)
    | none => (st, .failed .noSessionId)
  else
    insertRow p.sessionId

/-- UTF-8 encoding of a Unicode code point, as `Buffer.from(content)`
produces byte-wise. -/
def utf8Bytes (c : Nat) : List Nat :=
  if c < 0x80 then [c]
  else if c < 0x800 then [0xC0 + c / 64, 0x80 + c % 64]
  else if c < 0x10000 then [0xE0 + c / 4096, 0x80 + (c / 64) % 64, 0x80 + c % 64]
  else [0xF0 + c / 262144, 0x80 + (c / 4096) % 64, 0x80 + (c / 64) % 64, 0x80 + c % 64]

/-- The base64 alphabet. -/
def base64Alphabet : List Char :=
  "ABCDEFGHIJKLMNOPQRSTUVWXYZabcdefghijklmnopqrstuvwxyz0123456789+/".toList

/-- One base64 digit. -/
def base64Digit (n : Nat) : Char := base64Alphabet.getD n '='

/-- Standard base64 of a byte list, with `=` padding. -/
def base64Encode : List Nat → List Char
  | [] => []
  | [a] => [base64Digit (a / 4), base64Digit (a % 4 * 16), '=', '=']
  | [a, b] => [base64Digit (a / 4), base64Digit (a % 4 * 16 + b / 16),
               base64Digit (b % 16 * 4), '=']
  | a :: b :: c :: rest =>
      base64Digit (a / 4) :: base64Digit (a % 4 * 16 + b / 16) ::
      base64Digit (b % 16 * 4 + c / 64) :: base64Digit (c % 64) ::
      base64Encode rest

/-- The snapshot handler's content fingerprint:
`Buffer.from(params.content).toString('base64')` — base64 of the UTF-8
bytes of the content. -/
def contentHash (content : String) : String :=
  String.mk (base64Encode ((content.toList.map (fun c => utf8Bytes c.toNat)).flatten))

/-- Result of the `createSnapshot` handler (`src/tools/tracking/index.ts`). -/
inductive SnapshotResult
  /-- "Snapshot Creation Failed" from session validation (success flag
  `false`). -/
  | failed (check : SessionCheck)
  /-- "Snapshot Already Exists" — the dedup branch. The source returns it
  through `createResponse(false, ...)`: its success flag is `false`. -/
  | duplicate
  /-- "Snapshot Created" (success flag `true`). -/
  | created
deriving DecidableEq, Repr

/-- The `success` flag of each `createSnapshot` result, read off the first
argument of the corresponding `createResponse` call. -/
def SnapshotResult.isSuccess : SnapshotResult → Bool
  | .created => true
  | _ => false

/-- The `createSnapshot` handler (`src/tools/tracking/index.ts`): validate
the session, hash the content, reject as a duplicate when a snapshot with the
same `(session_id, file_path, content_hash)` already exists, else insert. -/
def createSnapshot (st : SessionStore) (sessionId filePath content : String) :
    SessionStore × SnapshotResult :=
  match validateSession st.sessions sessionId with
  | .ok s =>
    let hash := contentHash content
    match st.snapshots.find? (fun sn =>
        sn.session_id == s.id && sn.file_path == filePath && sn.content_hash == hash) with
    | some _ => (st, .duplicate)
    | none =>
      ({ st with snapshots := st.snapshots ++
          [({ session_id := s.id, file_path := filePath
              content := content, content_hash := hash } : SnapshotRow)] }, .created)
  | check => (st, .failed check)

/-- Result of the `logDecision` handler. -/
inductive DecisionResult
  | failed (check : SessionCheck)
  | logged
deriving DecidableEq, Repr

/-- The `logDecision` tracking handler (`src/unnamed/part_010`, registered
as `MUST-LOG-ALL-DECISIONS`): validate the session, then insert one
`decisions` row with `session_id = result.data.id` and
`alternatives: params.alternatives || null` (JS truthiness: an absent or
empty string becomes null). The handler touches nothing else — in
particular it never writes to the `sessions` table. -/
def logDecision (st : SessionStore) (sessionId description reasoning : String)
    (alternatives : Option String) : SessionStore × DecisionResult :=
  match validateSession st.sessions sessionId with
  | .ok s =>
    ({ st with
       decisions := st.decisions ++
         [({ session_id := s.id, description := description, reasoning := reasoning
             alternatives := if jsFalsy alternatives then none else alternatives }
           : DecisionRow)] },
     .logged)
  | check => (st, .failed check)

/-- Result of the `endSession` handler (the enhanced version in
`src/tools/session/end-session.ts` that sets `status = "completed"`). -/
inductive EndSessionResult
  /-- "Session End Failed" from session validation (success flag `false`). -/
  | failed (check : SessionCheck)
  /-- "Session Ended" (success flag `true`). -/
  | ended
deriving DecidableEq, Repr

/-- The `endSession` handler: validate the session (it must be `active`),
then set `status = "completed"`, `end_time = now`, `summary = <input>`.
The subsequent next-task/feature-completion queries only shape response
text and cannot fail the call, so the success response always follows the
update. -/
def endSession (st : SessionStore) (sessionId summary : String) (now : Nat) :
    SessionStore × EndSessionResult :=
  match validateSession st.sessions sessionId with
  | .ok _ =>
    ({ st with
       sessions := setSessionRows st.sessions sessionId
         (fun s => { s with
           status := SessionStatus.completed
           end_time := some now
           summary := some summary }) }, .ended)
  | check => (st, .failed check)

/-- The row a status-changing `updateTaskStatus` call writes: the handler's
`updateData` combined with the fired `update_status_tracking` trigger. -/
def changedTaskRow (p : UpdateTaskParams) (now : Nat) (user : String) (t : TaskRow) : TaskRow :=
  { t with
    status := p.status
    updated_at := now
    blocking_reason := if p.status == TaskStatus.blocked then p.blockingReason else none
    blocked_by_id := if p.status == TaskStatus.blocked then p.blockedById else none
    status_updated_at := now
    status_history := taskCallEntry user (p, now) :: t.status_history }

/-- The row a status-changing `updateFeatureStatus` call writes. -/
def changedFeatureRow (p : UpdateFeatureParams) (now : Nat) (user : String)
    (f : FeatureRow) : FeatureRow :=
  { f with
    status := p.status
    updated_at := now
    blocking_reason := if p.status == FeatureStatus.blocked then p.blockingReason else none
    blocked_by_id := if p.status == FeatureStatus.blocked then p.blockedById else none
    status_updated_at := now
    status_history := featureCallEntry user (p, now) :: f.status_history }

/-! ## Concrete fixtures used by counterexamples and witnesses -/

/-- A plain `ready` task with no blocking fields (stored as SQL `null`). -/
def exTaskT2 : TaskRow :=
  { id := "T2", feature_id := none, name := "task two", status := TaskStatus.ready
    blocking_reason := none, blocked_by_id := none, status_updated_at := 0
    status_history := [], updated_at := 0 }

/-- A task currently `blocked` by `T2` with reason "r1", and the history
entry its last transition produced. -/
def exTaskBlocked : TaskRow :=
  { id := "T1", feature_id := none, name := "task one", status := TaskStatus.blocked
    blocking_reason := some "r1", blocked_by_id := some "T2", status_updated_at := 5
    status_history := [{ status := TaskStatus.blocked, changed_at := 5
                         changed_by := "postgres", reason := "r1" }]
    updated_at := 5 }

/-- A `ready` task that is the only task of feature `F1`. -/
def exTaskOfF1 : TaskRow :=
  { id := "T1", feature_id := some "F1", name := "only task", status := TaskStatus.in_progress
    blocking_reason := none, blocked_by_id := none, status_updated_at := 5
    status_history := [], updated_at := 5 }

/-- The condition the task handler's feature-progress block tests on the
post-update table (`completedTasks === totalTasks` over the feature's
tasks): every task of feature `fid` is `completed`. When it holds together
with `params.status === "completed"`, the handler hits the
use-before-declaration `ReferenceError`. -/
def taskFeatureFullyCompleted (table : List TaskRow) (fid : String) : Bool :=
  ((table.filter (fun t => t.feature_id == some fid)).filter
    (fun t => t.status == TaskStatus.completed)).length ==
  (table.filter (fun t => t.feature_id == some fid)).length

/-- A `completed` task of feature `F1` (which also holds the non-completed
`exTaskOfF1`). -/
def exTaskCompleted : TaskRow :=
  { id := "T5", feature_id := some "F1", name := "done task"
    status := TaskStatus.completed, blocking_reason := none, blocked_by_id := none
    status_updated_at := 2, status_history := [], updated_at := 2 }

/-- A freshly created task (`status_history` starts as `'[]'::jsonb`). -/
def exFreshTask : TaskRow :=
  { id := "T9", feature_id := none, name := "fresh", status := TaskStatus.backlog
    blocking_reason := none, blocked_by_id := none, status_updated_at := 0
    status_history := [], updated_at := 0 }

/-- A freshly created feature. -/
def exFreshFeature : FeatureRow :=
  { id := "F9", application_id := none, name := "fresh feature", status := FeatureStatus.planned
    blocking_reason := none, blocked_by_id := none, status_updated_at := 0
    status_history := [], updated_at := 0 }

/-- A second feature, target of blocking references. -/
def exFeatureF2 : FeatureRow :=
  { id := "F2", application_id := none, name := "feature two", status := FeatureStatus.ready
    blocking_reason := none, blocked_by_id := none, status_updated_at := 0
    status_history := [], updated_at := 0 }

/-- A feature currently `blocked` by `F2` with reason "fr". -/
def exFeatureBlocked : FeatureRow :=
  { id := "F1", application_id := none, name := "feature one", status := FeatureStatus.blocked
    blocking_reason := some "fr", blocked_by_id := some "F2", status_updated_at := 3
    status_history := [{ status := FeatureStatus.blocked, changed_at := 3
                         changed_by := "postgres", reason := "fr" }]
    updated_at := 3 }

/-- An active session with the default compliance score of 100. -/
def exSession : SessionRow :=
  { id := "S1", task_id := none, feature_id := none, application_id := none
    status := SessionStatus.active, start_time := 1000, end_time := none
    summary := none, last_checkpoint_at := none, last_file_change_at := none
    last_decision_at := none, compliance_score := 100 }

/-- A store holding only the active session `S1`. -/
def exStore : SessionStore :=
  { sessions := [exSession], file_changes := [], checkpoints := []
    snapshots := [], decisions := [], scope_validations := [] }

/-! ## Helper lemmas -/

theorem find?_map_replace {α : Type} (key : α → String) (id : String) (r : α)
    (hr : (key r == id) = true) :
    ∀ (l : List α) (t : α), l.find? (fun a => key a == id) = some t →
      (l.map fun a => if key a == id then r else a).find? (fun a => key a == id) = some r := by
  intro l
  induction l with
  | nil => intro t h; simp at h
  | cons a as ih =>
    intro t h
    by_cases ha : (key a == id) = true
    · simp only [List.map_cons, if_pos ha]
      exact List.find?_cons_of_pos _ hr
    · rw [List.find?_cons_of_neg _ (by simpa using ha)] at h
      simp only [List.map_cons, if_neg ha]
      rw [List.find?_cons_of_neg _ (by simpa using ha)]
      exact ih t h


/-- `applyTaskTrigger` on a status-changing update produces `changedTaskRow`. -/
theorem applyTaskTrigger_changed (p : UpdateTaskParams) (now : Nat) (user : String)
    (t : TaskRow) (h : t.status ≠ p.status) :
    applyTaskTrigger t (taskUpdateData p now t) now user = changedTaskRow p now user t := by
  unfold applyTaskTrigger taskUpdateData changedTaskRow taskCallEntry
  simp [h]

/-- A successful status-changing `updateTaskStatus` call writes exactly
`changedTaskRow` for the matched task and reports the previous and new
status. -/
theorem updateTaskStatus_updated_eq (tasks : List TaskRow) (p : UpdateTaskParams)
    (now : Nat) (user : String) (t : TaskRow) (a b : TaskStatus)
    (hfind : tasks.find? (fun x => x.id == p.taskId) = some t)
    (hres : (updateTaskStatus tasks p now user).2 = .updated a b)
    (hab : a ≠ b) :
    a = t.status ∧ b = p.status ∧
    updateTaskStatus tasks p now user =
      (setTaskRow tasks p.taskId (changedTaskRow p now user t), .updated t.status p.status) := by
  simp only [updateTaskStatus, hfind] at hres ⊢
  by_cases h1 : (p.status == TaskStatus.blocked && !(taskBlockedParamsPresent p)) = true
  · rw [if_pos h1] at hres; simp at hres
  · rw [if_neg h1] at hres ⊢
    by_cases h2 : (p.status == TaskStatus.blocked && !(blockingTaskExists tasks p)) = true
    · rw [if_pos h2] at hres; simp at hres
    · rw [if_neg h2] at hres ⊢
      by_cases h3 : taskAlreadyCurrent t p = true
      · rw [if_pos h3] at hres; simp at hres
      · rw [if_neg h3] at hres ⊢
        cases hdb : dbUpdateTask tasks p.taskId (taskUpdateData p now) now user with
        | none => rw [hdb] at hres; simp at hres
        | some pr =>
          rw [hdb] at hres
          have hpr : pr = (setTaskRow tasks p.taskId
              (applyTaskTrigger t (taskUpdateData p now t) now user),
              applyTaskTrigger t (taskUpdateData p now t) now user) := by
            simp only [dbUpdateTask, hfind] at hdb
            by_cases hcon : taskConstraintsOk
                (setTaskRow tasks p.taskId (applyTaskTrigger t (taskUpdateData p now t) now user))
                (applyTaskTrigger t (taskUpdateData p now t) now user) = true
            · rw [if_pos hcon] at hdb
              exact (Option.some_inj.mp hdb).symm
            · rw [if_neg hcon] at hdb
              cases hdb
          subst hpr
          dsimp only at hres ⊢
          cases hfid : t.feature_id with
          | none =>
            simp only [hfid] at hres ⊢
            simp only [TaskUpdateResult.updated.injEq] at hres
            obtain ⟨ha, hb⟩ := hres
            subst ha; subst hb
            exact ⟨rfl, rfl, by rw [applyTaskTrigger_changed p now user t hab]⟩
          | some fid =>
            simp only [hfid] at hres ⊢
            split at hres
            · simp at hres
            · next hcond =>
              rw [if_neg hcond]
              simp only [TaskUpdateResult.updated.injEq] at hres
              obtain ⟨ha, hb⟩ := hres
              subst ha; subst hb
              exact ⟨rfl, rfl, by rw [applyTaskTrigger_changed p now user t hab]⟩

/-- `applyFeatureTrigger` on a status-changing update produces
`changedFeatureRow`. -/
theorem applyFeatureTrigger_changed (p : UpdateFeatureParams) (now : Nat) (user : String)
    (f : FeatureRow) (h : f.status ≠ p.status) :
    applyFeatureTrigger f (featureUpdateData p now f) now user = changedFeatureRow p now user f := by
  unfold applyFeatureTrigger featureUpdateData changedFeatureRow featureCallEntry
  simp [h]

/-- A successful status-changing `updateFeatureStatus` call writes exactly
`changedFeatureRow` for the matched feature. -/
theorem updateFeatureStatus_updated_eq (features : List FeatureRow) (p : UpdateFeatureParams)
    (now : Nat) (user : String) (f : FeatureRow) (a b : FeatureStatus)
    (hfind : features.find? (fun x => x.id == p.featureId) = some f)
    (hres : (updateFeatureStatus features p now user).2 = .updated a b)
    (hab : a ≠ b) :
    a = f.status ∧ b = p.status ∧
    updateFeatureStatus features p now user =
      (setFeatureRow features p.featureId (changedFeatureRow p now user f),
        .updated f.status p.status) := by
  simp only [updateFeatureStatus, hfind] at hres ⊢
  by_cases h1 : (p.status == FeatureStatus.blocked && !(featureBlockedParamsPresent p)) = true
  · rw [if_pos h1] at hres; simp at hres
  · rw [if_neg h1] at hres ⊢
    by_cases h2 : (p.status == FeatureStatus.blocked && !(blockingFeatureExists features p)) = true
    · rw [if_pos h2] at hres; simp at hres
    · rw [if_neg h2] at hres ⊢
      by_cases h3 : featureAlreadyCurrent f p = true
      · rw [if_pos h3] at hres; simp at hres
      · rw [if_neg h3] at hres ⊢
        cases hdb : dbUpdateFeature features p.featureId (featureUpdateData p now) now user with
        | none => rw [hdb] at hres; simp at hres
        | some pr =>
          rw [hdb] at hres
          have hpr : pr = (setFeatureRow features p.featureId
              (applyFeatureTrigger f (featureUpdateData p now f) now user),
              applyFeatureTrigger f (featureUpdateData p now f) now user) := by
            simp only [dbUpdateFeature, hfind] at hdb
            by_cases hcon : featureConstraintsOk
                (setFeatureRow features p.featureId
                  (applyFeatureTrigger f (featureUpdateData p now f) now user))
                (applyFeatureTrigger f (featureUpdateData p now f) now user) = true
            · rw [if_pos hcon] at hdb
              exact (Option.some_inj.mp hdb).symm
            · rw [if_neg hcon] at hdb
              cases hdb
          subst hpr
          dsimp only at hres ⊢
          simp only [FeatureUpdateResult.updated.injEq] at hres
          obtain ⟨ha, hb⟩ := hres
          subst ha; subst hb
          exact ⟨rfl, rfl, by rw [applyFeatureTrigger_changed p now user f hab]⟩

/-- Folding a constant-update function over a list lands on the image of
its last element. -/
theorem foldl_const_of_getLast? {α β : Type} (g : β → α) :
    ∀ (l : List β) (c : β) (init : α), l.getLast? = some c →
      l.foldl (fun _ x => g x) init = g c := by
  intro l
  induction l with
  | nil => intro c init h; simp at h
  | cons a as ih =>
    intro c init h
    cases as with
    | nil =>
      rw [List.getLast?_singleton] at h
      obtain rfl := Option.some_inj.mp h
      rfl
    | cons b bs =>
      rw [List.getLast?_cons_cons] at h
      simpa using ih c (g a) h

/-- Exact characterisation of a run of successful, status-changing
`updateTaskStatus` calls on one task: the final `status_history` is the
per-call trigger entries, most recent first, on top of the initial history,
and the final status is the last call's target. -/
theorem runTaskCalls_history (user : String) :
    ∀ (calls : List (UpdateTaskParams × Nat)) (tasks : List TaskRow) (id : String) (t : TaskRow),
      tasks.find? (fun x => x.id == id) = some t →
      (∀ c ∈ calls, c.1.taskId = id) →
      (∀ r ∈ (runTaskCalls user tasks calls).2, isChangingUpdate r = true) →
      ∃ t', (runTaskCalls user tasks calls).1.find? (fun x => x.id == id) = some t' ∧
        t'.status_history = (calls.map (taskCallEntry user)).reverse ++ t.status_history ∧
        t'.status = calls.foldl (fun _ c => c.1.status) t.status := by
  intro calls
  induction calls with
  | nil =>
    intro tasks id t hfind _ _
    exact ⟨t, by simpa [runTaskCalls] using hfind, by simp, rfl⟩
  | cons c rest ih =>
    intro tasks id t hfind hid hch
    simp only [runTaskCalls] at hch ⊢
    have hid1 : c.1.taskId = id := hid c (List.mem_cons_self c rest)
    have hchead : isChangingUpdate (updateTaskStatus tasks c.1 c.2 user).2 = true :=
      hch _ (List.mem_cons_self _ _)
    cases hres : (updateTaskStatus tasks c.1 c.2 user).2 with
    | updated a b =>
      have hab : a ≠ b := by
        rw [hres] at hchead
        simpa [isChangingUpdate] using hchead
      obtain ⟨ha, hb, heq⟩ := updateTaskStatus_updated_eq tasks c.1 c.2 user t a b
        (by rw [hid1]; exact hfind) hres hab
      have hfind1 : (updateTaskStatus tasks c.1 c.2 user).1.find? (fun x => x.id == id) =
          some (changedTaskRow c.1 c.2 user t) := by
        rw [heq]
        have hrid : ((changedTaskRow c.1 c.2 user t).id == id) = true := by
          have := List.find?_some hfind
          simpa [changedTaskRow] using this
        rw [← hid1] at hrid ⊢
        exact find?_map_replace (fun x => x.id) c.1.taskId (changedTaskRow c.1 c.2 user t)
          hrid tasks t (by rw [hid1]; exact hfind)
      obtain ⟨t', hfind', hhist', hstat'⟩ := ih (updateTaskStatus tasks c.1 c.2 user).1 id
        (changedTaskRow c.1 c.2 user t) hfind1
        (fun x hx => hid x (List.mem_cons_of_mem c hx))
        (fun r hr => hch r (List.mem_cons_of_mem _ hr))
      refine ⟨t', hfind', ?_, ?_⟩
      · rw [hhist']
        simp [changedTaskRow, List.reverse_cons, List.append_assoc]
      · rw [hstat']
        simp [changedTaskRow]
    | taskNotFound => rw [hres] at hchead; simp [isChangingUpdate] at hchead
    | missingBlockingInfo => rw [hres] at hchead; simp [isChangingUpdate] at hchead
    | blockingTaskNotFound => rw [hres] at hchead; simp [isChangingUpdate] at hchead
    | alreadyCurrent => rw [hres] at hchead; simp [isChangingUpdate] at hchead
    | updateError => rw [hres] at hchead; simp [isChangingUpdate] at hchead
    | caughtReferenceError => rw [hres] at hchead; simp [isChangingUpdate] at hchead

/-- Exact characterisation of a run of successful, status-changing
`updateFeatureStatus` calls on one feature. -/
theorem runFeatureCalls_history (user : String) :
    ∀ (calls : List (UpdateFeatureParams × Nat)) (features : List FeatureRow) (id : String)
      (f : FeatureRow),
      features.find? (fun x => x.id == id) = some f →
      (∀ c ∈ calls, c.1.featureId = id) →
      (∀ r ∈ (runFeatureCalls user features calls).2, isChangingFeatureUpdate r = true) →
      ∃ f', (runFeatureCalls user features calls).1.find? (fun x => x.id == id) = some f' ∧
        f'.status_history = (calls.map (featureCallEntry user)).reverse ++ f.status_history ∧
        f'.status = calls.foldl (fun _ c => c.1.status) f.status := by
  intro calls
  induction calls with
  | nil =>
    intro features id f hfind _ _
    exact ⟨f, by simpa [runFeatureCalls] using hfind, by simp, rfl⟩
  | cons c rest ih =>
    intro features id f hfind hid hch
    simp only [runFeatureCalls] at hch ⊢
    have hid1 : c.1.featureId = id := hid c (List.mem_cons_self c rest)
    have hchead : isChangingFeatureUpdate (updateFeatureStatus features c.1 c.2 user).2 = true :=
      hch _ (List.mem_cons_self _ _)
    cases hres : (updateFeatureStatus features c.1 c.2 user).2 with
    | updated a b =>
      have hab : a ≠ b := by
        rw [hres] at hchead
        simpa [isChangingFeatureUpdate] using hchead
      obtain ⟨ha, hb, heq⟩ := updateFeatureStatus_updated_eq features c.1 c.2 user f a b
        (by rw [hid1]; exact hfind) hres hab
      have hfind1 : (updateFeatureStatus features c.1 c.2 user).1.find? (fun x => x.id == id) =
          some (changedFeatureRow c.1 c.2 user f) := by
        rw [heq]
        have hrid : ((changedFeatureRow c.1 c.2 user f).id == id) = true := by
          have := List.find?_some hfind
          simpa [changedFeatureRow] using this
        rw [← hid1] at hrid ⊢
        exact find?_map_replace (fun x => x.id) c.1.featureId (changedFeatureRow c.1 c.2 user f)
          hrid features f (by rw [hid1]; exact hfind)
      obtain ⟨f', hfind', hhist', hstat'⟩ := ih (updateFeatureStatus features c.1 c.2 user).1 id
        (changedFeatureRow c.1 c.2 user f) hfind1
        (fun x hx => hid x (List.mem_cons_of_mem c hx))
        (fun r hr => hch r (List.mem_cons_of_mem _ hr))
      refine ⟨f', hfind', ?_, ?_⟩
      · rw [hhist']
        simp [changedFeatureRow, List.reverse_cons, List.append_assoc]
      · rw [hstat']
        simp [changedFeatureRow]
    | featureNotFound => rw [hres] at hchead; simp [isChangingFeatureUpdate] at hchead
    | missingBlockingInfo => rw [hres] at hchead; simp [isChangingFeatureUpdate] at hchead
    | blockingFeatureNotFound => rw [hres] at hchead; simp [isChangingFeatureUpdate] at hchead
    | alreadyCurrent => rw [hres] at hchead; simp [isChangingFeatureUpdate] at hchead
    | updateError => rw [hres] at hchead; simp [isChangingFeatureUpdate] at hchead

/-- Any `updateTaskStatus` call that returns the `updated` response (status
value changed or not) has performed exactly the store update of the
handler's `updateData` with the trigger applied. -/
theorem updateTaskStatus_updated_general (tasks : List TaskRow) (p : UpdateTaskParams)
    (now : Nat) (user : String) (t : TaskRow) (a b : TaskStatus)
    (hfind : tasks.find? (fun x => x.id == p.taskId) = some t)
    (hres : (updateTaskStatus tasks p now user).2 = .updated a b) :
    a = t.status ∧ b = p.status ∧
    updateTaskStatus tasks p now user =
      (setTaskRow tasks p.taskId (applyTaskTrigger t (taskUpdateData p now t) now user),
        .updated t.status p.status) := by
  simp only [updateTaskStatus, hfind] at hres ⊢
  by_cases h1 : (p.status == TaskStatus.blocked && !(taskBlockedParamsPresent p)) = true
  · rw [if_pos h1] at hres; simp at hres
  · rw [if_neg h1] at hres ⊢
    by_cases h2 : (p.status == TaskStatus.blocked && !(blockingTaskExists tasks p)) = true
    · rw [if_pos h2] at hres; simp at hres
    · rw [if_neg h2] at hres ⊢
      by_cases h3 : taskAlreadyCurrent t p = true
      · rw [if_pos h3] at hres; simp at hres
      · rw [if_neg h3] at hres ⊢
        cases hdb : dbUpdateTask tasks p.taskId (taskUpdateData p now) now user with
        | none => rw [hdb] at hres; simp at hres
        | some pr =>
          rw [hdb] at hres
          have hpr : pr = (setTaskRow tasks p.taskId
              (applyTaskTrigger t (taskUpdateData p now t) now user),
              applyTaskTrigger t (taskUpdateData p now t) now user) := by
            simp only [dbUpdateTask, hfind] at hdb
            by_cases hcon : taskConstraintsOk
                (setTaskRow tasks p.taskId (applyTaskTrigger t (taskUpdateData p now t) now user))
                (applyTaskTrigger t (taskUpdateData p now t) now user) = true
            · rw [if_pos hcon] at hdb
              exact (Option.some_inj.mp hdb).symm
            · rw [if_neg hcon] at hdb
              cases hdb
          subst hpr
          dsimp only at hres ⊢
          cases hfid : t.feature_id with
          | none =>
            simp only [hfid] at hres ⊢
            simp only [TaskUpdateResult.updated.injEq] at hres
            obtain ⟨ha, hb⟩ := hres
            subst ha; subst hb
            exact ⟨rfl, rfl, trivial⟩
          | some fid =>
            simp only [hfid] at hres ⊢
            split at hres
            · simp at hres
            · next hcond =>
              rw [if_neg hcond]
              simp only [TaskUpdateResult.updated.injEq] at hres
              obtain ⟨ha, hb⟩ := hres
              subst ha; subst hb
              exact ⟨rfl, rfl, rfl⟩

/-- Feature analogue of `updateTaskStatus_updated_general`. -/
theorem updateFeatureStatus_updated_general (features : List FeatureRow)
    (p : UpdateFeatureParams) (now : Nat) (user : String) (f : FeatureRow)
    (a b : FeatureStatus)
    (hfind : features.find? (fun x => x.id == p.featureId) = some f)
    (hres : (updateFeatureStatus features p now user).2 = .updated a b) :
    a = f.status ∧ b = p.status ∧
    updateFeatureStatus features p now user =
      (setFeatureRow features p.featureId
        (applyFeatureTrigger f (featureUpdateData p now f) now user),
        .updated f.status p.status) := by
  simp only [updateFeatureStatus, hfind] at hres ⊢
  by_cases h1 : (p.status == FeatureStatus.blocked && !(featureBlockedParamsPresent p)) = true
  · rw [if_pos h1] at hres; simp at hres
  · rw [if_neg h1] at hres ⊢
    by_cases h2 : (p.status == FeatureStatus.blocked && !(blockingFeatureExists features p)) = true
    · rw [if_pos h2] at hres; simp at hres
    · rw [if_neg h2] at hres ⊢
      by_cases h3 : featureAlreadyCurrent f p = true
      · rw [if_pos h3] at hres; simp at hres
      · rw [if_neg h3] at hres ⊢
        cases hdb : dbUpdateFeature features p.featureId (featureUpdateData p now) now user with
        | none => rw [hdb] at hres; simp at hres
        | some pr =>
          rw [hdb] at hres
          have hpr : pr = (setFeatureRow features p.featureId
              (applyFeatureTrigger f (featureUpdateData p now f) now user),
              applyFeatureTrigger f (featureUpdateData p now f) now user) := by
            simp only [dbUpdateFeature, hfind] at hdb
            by_cases hcon : featureConstraintsOk
                (setFeatureRow features p.featureId
                  (applyFeatureTrigger f (featureUpdateData p now f) now user))
                (applyFeatureTrigger f (featureUpdateData p now f) now user) = true
            · rw [if_pos hcon] at hdb
              exact (Option.some_inj.mp hdb).symm
            · rw [if_neg hcon] at hdb
              cases hdb
          subst hpr
          dsimp only at hres ⊢
          simp only [FeatureUpdateResult.updated.injEq] at hres
          obtain ⟨ha, hb⟩ := hres
          subst ha; subst hb
          exact ⟨rfl, rfl, rfl⟩

/-- Claim C2: for one entity (Task or Feature) and any sequence of N
successful status transitions each changing the status value (issued in
chronological order), `status_history` afterwards has exactly N entries,
is ordered most-recent-first by `changed_at`, and its first entry's status
equals the entity's current status. -/
theorem claim_C2_history_monotonicity :
    (∀ (user : String) (calls : List (UpdateTaskParams × Nat)) (tasks : List TaskRow)
       (id : String) (t : TaskRow),
      tasks.find? (fun x => x.id == id) = some t →
      t.status_history = [] →
      (∀ c ∈ calls, c.1.taskId = id) →
      List.Chain' (· ≤ ·) (calls.map (fun c => c.2)) →
      (∀ r ∈ (runTaskCalls user tasks calls).2, isChangingUpdate r = true) →
      ∃ t', (runTaskCalls user tasks calls).1.find? (fun x => x.id == id) = some t' ∧
        t'.status_history.length = calls.length ∧
        List.Chain' (fun e₁ e₂ => e₂.changed_at ≤ e₁.changed_at) t'.status_history ∧
        ∀ e ∈ t'.status_history.head?, e.status = t'.status) ∧
    (∀ (user : String) (calls : List (UpdateFeatureParams × Nat)) (features : List FeatureRow)
       (id : String) (f : FeatureRow),
      features.find? (fun x => x.id == id) = some f →
      f.status_history = [] →
      (∀ c ∈ calls, c.1.featureId = id) →
      List.Chain' (· ≤ ·) (calls.map (fun c => c.2)) →
      (∀ r ∈ (runFeatureCalls user features calls).2, isChangingFeatureUpdate r = true) →
      ∃ f', (runFeatureCalls user features calls).1.find? (fun x => x.id == id) = some f' ∧
        f'.status_history.length = calls.length ∧
        List.Chain' (fun e₁ e₂ => e₂.changed_at ≤ e₁.changed_at) f'.status_history ∧
        ∀ e ∈ f'.status_history.head?, e.status = f'.status) := by
  constructor
  · intro user calls tasks id t hfind hempty hid htimes hch
    obtain ⟨t', hfind', hhist, hstat⟩ := runTaskCalls_history user calls tasks id t hfind hid hch
    rw [hempty, List.append_nil] at hhist
    refine ⟨t', hfind', ?_, ?_, ?_⟩
    · rw [hhist]; simp
    · rw [hhist]
      rw [List.chain'_reverse]
      rw [List.chain'_map]
      have := (List.chain'_map (fun c : UpdateTaskParams × Nat => c.2)
        (R := (fun x y : Nat => x ≤ y))).mp htimes
      simpa [taskCallEntry, flip] using this
    · intro e he
      rw [hhist] at he
      rw [List.head?_reverse] at he
      rw [List.getLast?_map] at he
      cases hlast : calls.getLast? with
      | none => rw [hlast] at he; simp at he
      | some c =>
        rw [hlast] at he
        have he' : taskCallEntry user c = e := by simpa using he
        rw [hstat, foldl_const_of_getLast? (fun c : UpdateTaskParams × Nat => c.1.status)
          calls c t.status hlast, ← he']
        rfl
  · intro user calls features id f hfind hempty hid htimes hch
    obtain ⟨f', hfind', hhist, hstat⟩ := runFeatureCalls_history user calls features id f hfind hid hch
    rw [hempty, List.append_nil] at hhist
    refine ⟨f', hfind', ?_, ?_, ?_⟩
    · rw [hhist]; simp
    · rw [hhist]
      rw [List.chain'_reverse]
      rw [List.chain'_map]
      have := (List.chain'_map (fun c : UpdateFeatureParams × Nat => c.2)
        (R := (fun x y : Nat => x ≤ y))).mp htimes
      simpa [featureCallEntry, flip] using this
    · intro e he
      rw [hhist] at he
      rw [List.head?_reverse] at he
      rw [List.getLast?_map] at he
      cases hlast : calls.getLast? with
      | none => rw [hlast] at he; simp at he
      | some c =>
        rw [hlast] at he
        have he' : featureCallEntry user c = e := by simpa using he
        rw [hstat, foldl_const_of_getLast? (fun c : UpdateFeatureParams × Nat => c.1.status)
          calls c f.status hlast, ← he']
        rfl

/-- Witness for C2: two status-changing task transitions
(`backlog → ready → in_progress`) and one feature transition, run concretely. -/
theorem claim_C2_witness :
    (∃ t', (runTaskCalls "u" [exFreshTask]
        [({ taskId := "T9", status := TaskStatus.ready }, 10),
         ({ taskId := "T9", status := TaskStatus.in_progress }, 20)]).1.find?
          (fun x => x.id == "T9") = some t' ∧
      t'.status_history.length =
        [(({ taskId := "T9", status := TaskStatus.ready } : UpdateTaskParams), 10),
         ({ taskId := "T9", status := TaskStatus.in_progress }, 20)].length ∧
      List.Chain' (fun e₁ e₂ => e₂.changed_at ≤ e₁.changed_at) t'.status_history ∧
      ∀ e ∈ t'.status_history.head?, e.status = t'.status) ∧
    (∃ f', (runFeatureCalls "u" [exFreshFeature]
        [({ featureId := "F9", status := FeatureStatus.in_progress }, 15)]).1.find?
          (fun x => x.id == "F9") = some f' ∧
      f'.status_history.length =
        [(({ featureId := "F9", status := FeatureStatus.in_progress } : UpdateFeatureParams),
          15)].length ∧
      List.Chain' (fun e₁ e₂ => e₂.changed_at ≤ e₁.changed_at) f'.status_history ∧
      ∀ e ∈ f'.status_history.head?, e.status = f'.status) :=
  ⟨claim_C2_history_monotonicity.1 "u" _ [exFreshTask] "T9" exFreshTask
      (by decide) (by decide) (by decide) (by simp) (by decide),
   claim_C2_history_monotonicity.2 "u" _ [exFreshFeature] "F9" exFreshFeature
      (by decide) (by decide) (by decide) (by simp) (by decide)⟩

/-- The trigger never changes a row's primary key. -/
theorem applyTaskTrigger_id (old new : TaskRow) (now : Nat) (user : String) :
    (applyTaskTrigger old new now user).id = new.id := by
  unfold applyTaskTrigger; split <;> rfl

/-- The trigger never changes a row's primary key (features). -/
theorem applyFeatureTrigger_id (old new : FeatureRow) (now : Nat) (user : String) :
    (applyFeatureTrigger old new now user).id = new.id := by
  unfold applyFeatureTrigger; split <;> rfl

/-- Claim C1 counterexample: a `blocked → blocked` transition that changes
only the blocking reason (requested triple differs from the current one,
all validations pass) succeeds with the "Task Status Updated" response and
persists the new blocking fields, yet prepends **no** status-history entry
and leaves `status_updated_at` untouched — the
`update_status_tracking` trigger fires only when the status value itself
changes (`IF OLD.status != NEW.status`). -/
theorem claim_C1_counterexample :
    (updateTaskStatus [exTaskBlocked, exTaskT2]
        { taskId := "T1", status := TaskStatus.blocked
          blockingReason := some "r2", blockedById := some "T2" } 10 "u").2 =
      TaskUpdateResult.updated TaskStatus.blocked TaskStatus.blocked ∧
    taskAlreadyCurrent exTaskBlocked
        { taskId := "T1", status := TaskStatus.blocked
          blockingReason := some "r2", blockedById := some "T2" } = false ∧
    (updateTaskStatus [exTaskBlocked, exTaskT2]
        { taskId := "T1", status := TaskStatus.blocked
          blockingReason := some "r2", blockedById := some "T2" } 10 "u").1.find?
      (fun x => x.id == "T1") =
      some { exTaskBlocked with blocking_reason := some "r2", updated_at := 10 } ∧
    ({ exTaskBlocked with blocking_reason := some "r2", updated_at := 10 } : TaskRow).status_history
      = exTaskBlocked.status_history ∧
    ({ exTaskBlocked with blocking_reason := some "r2", updated_at := 10 } : TaskRow).status_updated_at
      ≠ 10 := by
  refine ⟨?_, ?_, ?_, ?_, ?_⟩ <;> decide

/-- Claim C1 as amended: a `transitionStatus` call that returns the
successful "updated" response persists the requested status, sets the
blocking fields from the parameters when the target is `blocked` and clears
them to null otherwise; when the status **value** changed it bumps
`status_updated_at` to now and prepends exactly one history entry whose
status is the target and whose reason is the persisted blocking reason
(`blockingReason` on transitions to `blocked`, `"Status updated"` on all
others); when only the blocking fields changed, `status_updated_at` and
`status_history` are left untouched. Same for Features. -/
theorem claim_C1_transition_effects :
    (∀ (tasks : List TaskRow) (p : UpdateTaskParams) (now : Nat) (user : String)
       (t : TaskRow) (a b : TaskStatus),
      tasks.find? (fun x => x.id == p.taskId) = some t →
      (updateTaskStatus tasks p now user).2 = .updated a b →
      ∃ t', (updateTaskStatus tasks p now user).1.find? (fun x => x.id == p.taskId) = some t' ∧
        t'.status = p.status ∧
        t'.blocking_reason = (if p.status == TaskStatus.blocked then p.blockingReason else none) ∧
        t'.blocked_by_id = (if p.status == TaskStatus.blocked then p.blockedById else none) ∧
        (t.status ≠ p.status →
          t'.status_updated_at = now ∧
          t'.status_history = taskCallEntry user (p, now) :: t.status_history) ∧
        (t.status = p.status →
          t'.status_updated_at = t.status_updated_at ∧
          t'.status_history = t.status_history)) ∧
    (∀ (features : List FeatureRow) (p : UpdateFeatureParams) (now : Nat) (user : String)
       (f : FeatureRow) (a b : FeatureStatus),
      features.find? (fun x => x.id == p.featureId) = some f →
      (updateFeatureStatus features p now user).2 = .updated a b →
      ∃ f', (updateFeatureStatus features p now user).1.find? (fun x => x.id == p.featureId)
          = some f' ∧
        f'.status = p.status ∧
        f'.blocking_reason = (if p.status == FeatureStatus.blocked then p.blockingReason else none) ∧
        f'.blocked_by_id = (if p.status == FeatureStatus.blocked then p.blockedById else none) ∧
        (f.status ≠ p.status →
          f'.status_updated_at = now ∧
          f'.status_history = featureCallEntry user (p, now) :: f.status_history) ∧
        (f.status = p.status →
          f'.status_updated_at = f.status_updated_at ∧
          f'.status_history = f.status_history)) := by
  constructor
  · intro tasks p now user t a b hfind hres
    obtain ⟨ha, hb, heq⟩ := updateTaskStatus_updated_general tasks p now user t a b hfind hres
    refine ⟨applyTaskTrigger t (taskUpdateData p now t) now user, ?_, ?_⟩
    · rw [heq]
      exact find?_map_replace (fun x => x.id) p.taskId
        (applyTaskTrigger t (taskUpdateData p now t) now user)
        (by show ((applyTaskTrigger t (taskUpdateData p now t) now user).id == p.taskId) = true
            rw [applyTaskTrigger_id]
            have h := List.find?_some hfind
            simpa [taskUpdateData] using h) tasks t hfind
    · by_cases hst : t.status = p.status
      · have hrow : applyTaskTrigger t (taskUpdateData p now t) now user =
            taskUpdateData p now t := by
          unfold applyTaskTrigger
          rw [if_neg]
          simp [taskUpdateData, hst]
        rw [hrow]
        exact ⟨rfl, rfl, rfl, fun hc => absurd hst hc, fun _ => ⟨rfl, rfl⟩⟩
      · rw [applyTaskTrigger_changed p now user t hst]
        exact ⟨rfl, rfl, rfl, fun _ => ⟨rfl, rfl⟩, fun hc => absurd hc hst⟩
  · intro features p now user f a b hfind hres
    obtain ⟨ha, hb, heq⟩ := updateFeatureStatus_updated_general features p now user f a b hfind hres
    refine ⟨applyFeatureTrigger f (featureUpdateData p now f) now user, ?_, ?_⟩
    · rw [heq]
      exact find?_map_replace (fun x => x.id) p.featureId
        (applyFeatureTrigger f (featureUpdateData p now f) now user)
        (by show ((applyFeatureTrigger f (featureUpdateData p now f) now user).id == p.featureId)
              = true
            rw [applyFeatureTrigger_id]
            have h := List.find?_some hfind
            simpa [featureUpdateData] using h) features f hfind
    · by_cases hst : f.status = p.status
      · have hrow : applyFeatureTrigger f (featureUpdateData p now f) now user =
            featureUpdateData p now f := by
          unfold applyFeatureTrigger
          rw [if_neg]
          simp [featureUpdateData, hst]
        rw [hrow]
        exact ⟨rfl, rfl, rfl, fun hc => absurd hst hc, fun _ => ⟨rfl, rfl⟩⟩
      · rw [applyFeatureTrigger_changed p now user f hst]
        exact ⟨rfl, rfl, rfl, fun _ => ⟨rfl, rfl⟩, fun hc => absurd hc hst⟩

/-- Witness for the amended C1: a concrete `ready → in_progress` task
transition and a `planned → ready` feature transition. -/
theorem claim_C1_witness :
    (∃ t', (updateTaskStatus [exTaskT2]
        { taskId := "T2", status := TaskStatus.in_progress } 7 "u").1.find?
          (fun x => x.id == "T2") = some t' ∧
      t'.status = TaskStatus.in_progress ∧
      t'.blocking_reason = (if TaskStatus.in_progress == TaskStatus.blocked then
        (none : Option String) else none) ∧
      t'.blocked_by_id = (if TaskStatus.in_progress == TaskStatus.blocked then
        (none : Option String) else none) ∧
      (exTaskT2.status ≠ TaskStatus.in_progress →
        t'.status_updated_at = 7 ∧
        t'.status_history =
          taskCallEntry "u" ({ taskId := "T2", status := TaskStatus.in_progress }, 7)
            :: exTaskT2.status_history) ∧
      (exTaskT2.status = TaskStatus.in_progress →
        t'.status_updated_at = exTaskT2.status_updated_at ∧
        t'.status_history = exTaskT2.status_history)) ∧
    (∃ f', (updateFeatureStatus [exFreshFeature]
        { featureId := "F9", status := FeatureStatus.ready } 7 "u").1.find?
          (fun x => x.id == "F9") = some f' ∧
      f'.status = FeatureStatus.ready ∧
      f'.blocking_reason = (if FeatureStatus.ready == FeatureStatus.blocked then
        (none : Option String) else none) ∧
      f'.blocked_by_id = (if FeatureStatus.ready == FeatureStatus.blocked then
        (none : Option String) else none) ∧
      (exFreshFeature.status ≠ FeatureStatus.ready →
        f'.status_updated_at = 7 ∧
        f'.status_history =
          featureCallEntry "u" ({ featureId := "F9", status := FeatureStatus.ready }, 7)
            :: exFreshFeature.status_history) ∧
      (exFreshFeature.status = FeatureStatus.ready →
        f'.status_updated_at = exFreshFeature.status_updated_at ∧
        f'.status_history = exFreshFeature.status_history)) :=
  ⟨claim_C1_transition_effects.1 [exTaskT2]
      { taskId := "T2", status := TaskStatus.in_progress } 7 "u" exTaskT2
      TaskStatus.ready TaskStatus.in_progress (by decide) (by decide),
   claim_C1_transition_effects.2 [exFreshFeature]
      { featureId := "F9", status := FeatureStatus.ready } 7 "u" exFreshFeature
      FeatureStatus.planned FeatureStatus.ready (by decide) (by decide)⟩

/-- A nonempty string is not `isEmpty`. -/
theorem isEmpty_false_of_ne (s : String) (h : s ≠ "") : s.isEmpty = false := by
  cases he : s.isEmpty
  · rfl
  · exact absurd ((String.isEmpty_iff s).mp he) h

/-- Claim C4 counterexample: repeating a request whose
`(targetStatus, blockedById, blockingReason)` triple is identical to the
entity's current one — `ready` with both blocking fields absent, against a
task stored as `ready` with both columns null — is **not** detected as
"already current" (JS `===` between stored `null` and absent `undefined`
parameters is false), so both calls perform a write and return the plain
"Task Status Updated" response; `status_history` is still unchanged because
the trigger sees no status-value change. -/
theorem claim_C4_counterexample :
    (updateTaskStatus [exTaskT2] { taskId := "T2", status := TaskStatus.ready } 10 "u").2 =
      TaskUpdateResult.updated TaskStatus.ready TaskStatus.ready ∧
    (updateTaskStatus
        (updateTaskStatus [exTaskT2] { taskId := "T2", status := TaskStatus.ready } 10 "u").1
        { taskId := "T2", status := TaskStatus.ready } 20 "u").2 =
      TaskUpdateResult.updated TaskStatus.ready TaskStatus.ready ∧
    TaskUpdateResult.updated TaskStatus.ready TaskStatus.ready ≠
      TaskUpdateResult.alreadyCurrent ∧
    (updateTaskStatus
        (updateTaskStatus [exTaskT2] { taskId := "T2", status := TaskStatus.ready } 10 "u").1
        { taskId := "T2", status := TaskStatus.ready } 20 "u").1.find?
      (fun x => x.id == "T2") = some { exTaskT2 with updated_at := 20 } ∧
    ({ exTaskT2 with updated_at := 20 } : TaskRow).status_history = exTaskT2.status_history := by
  refine ⟨?_, ?_, ?_, ?_, ?_⟩ <;> decide

/-- Claim C4 as amended: the already-current no-op applies exactly when the
stored and requested triples match under JS strict equality. Repeating a
`blocked` transition with identical `blockingReason`/`blockedById` yields
the success-flagged "already current" response both times with no write.
Repeating a non-blocked transition with absent blocking parameters is
**not** recognised (stored `null` never strictly equals absent `undefined`):
each repeat performs a write and returns the ordinary "updated" success
response — though `status_history` is still unchanged, since the trigger
only fires on a status-value change. The single exception, for a task, is a
repeat of `completed` that leaves every task of its feature completed: that
one hits the handler's caught `ReferenceError` (claim C9); completed
repeats on a task with no feature, or whose feature still has a
non-completed task, return the "updated" response like any other repeat.
Same for Features. -/
theorem claim_C4_idempotence :
    (∀ (tasks : List TaskRow) (p : UpdateTaskParams) (now : Nat) (user : String)
       (t : TaskRow) (bi r : String),
      tasks.find? (fun x => x.id == p.taskId) = some t →
      p.status = TaskStatus.blocked →
      p.blockingReason = some r → p.blockedById = some bi →
      r ≠ "" → bi ≠ "" →
      (tasks.find? (fun x => x.id == bi)).isSome = true →
      t.status = TaskStatus.blocked →
      t.blocking_reason = some r → t.blocked_by_id = some bi →
      updateTaskStatus tasks p now user = (tasks, .alreadyCurrent)) ∧
    (∀ (tasks : List TaskRow) (p : UpdateTaskParams) (now : Nat) (user : String)
       (t : TaskRow),
      tasks.find? (fun x => x.id == p.taskId) = some t →
      p.status ≠ TaskStatus.blocked →
      t.status = p.status →
      p.blockingReason = none → p.blockedById = none →
      t.blocking_reason = none → t.blocked_by_id = none →
      (∀ fid, t.feature_id = some fid → p.status = TaskStatus.completed →
        taskFeatureFullyCompleted
          (setTaskRow tasks p.taskId
            { t with status := p.status, updated_at := now
                     blocking_reason := none, blocked_by_id := none }) fid = false) →
      updateTaskStatus tasks p now user =
        (setTaskRow tasks p.taskId
          { t with status := p.status, updated_at := now
                   blocking_reason := none, blocked_by_id := none },
         .updated t.status p.status) ∧
      ({ t with status := p.status, updated_at := now
                blocking_reason := none, blocked_by_id := none } : TaskRow).status_history
        = t.status_history) ∧
    (∀ (features : List FeatureRow) (p : UpdateFeatureParams) (now : Nat) (user : String)
       (f : FeatureRow) (bi r : String),
      features.find? (fun x => x.id == p.featureId) = some f →
      p.status = FeatureStatus.blocked →
      p.blockingReason = some r → p.blockedById = some bi →
      r ≠ "" → bi ≠ "" →
      (features.find? (fun x => x.id == bi)).isSome = true →
      f.status = FeatureStatus.blocked →
      f.blocking_reason = some r → f.blocked_by_id = some bi →
      updateFeatureStatus features p now user = (features, .alreadyCurrent)) ∧
    (∀ (features : List FeatureRow) (p : UpdateFeatureParams) (now : Nat) (user : String)
       (f : FeatureRow),
      features.find? (fun x => x.id == p.featureId) = some f →
      p.status ≠ FeatureStatus.blocked →
      f.status = p.status →
      p.blockingReason = none → p.blockedById = none →
      f.blocking_reason = none → f.blocked_by_id = none →
      updateFeatureStatus features p now user =
        (setFeatureRow features p.featureId
          { f with status := p.status, updated_at := now
                   blocking_reason := none, blocked_by_id := none },
         .updated f.status p.status) ∧
      ({ f with status := p.status, updated_at := now
                blocking_reason := none, blocked_by_id := none } : FeatureRow).status_history
        = f.status_history) := by
  refine ⟨?_, ?_, ?_, ?_⟩
  · intro tasks p now user t bi r hfind hps hbr hbb hrne hbine hbex hts htbr htbb
    have hre : r.isEmpty = false := isEmpty_false_of_ne r hrne
    have hbie : bi.isEmpty = false := isEmpty_false_of_ne bi hbine
    have hpresent : taskBlockedParamsPresent p = true := by
      simp [taskBlockedParamsPresent, hbr, hbb, jsFalsy, hre, hbie]
    have hexists : blockingTaskExists tasks p = true := by
      simp [blockingTaskExists, hbb, hbex]
    have hac : taskAlreadyCurrent t p = true := by
      simp [taskAlreadyCurrent, hts, hps, htbr, htbb, hbr, hbb, jsStrictEq]
    simp only [updateTaskStatus, hfind]
    rw [if_neg (by simp [hpresent]), if_neg (by simp [hexists]), if_pos hac]
  · intro tasks p now user t hfind hnb hts hbrn hbbn htbrn htbbn hnotfull
    have hpsb : (p.status == TaskStatus.blocked) = false := by
      simp [hnb]
    have hac : taskAlreadyCurrent t p = false := by
      simp [taskAlreadyCurrent, htbbn, hbbn, jsStrictEq]
    have hrow : applyTaskTrigger t (taskUpdateData p now t) now user =
        { t with status := p.status, updated_at := now
                 blocking_reason := none, blocked_by_id := none } := by
      have hdata : taskUpdateData p now t =
          { t with status := p.status, updated_at := now
                   blocking_reason := none, blocked_by_id := none } := by
        simp [taskUpdateData, hpsb]
      unfold applyTaskTrigger
      rw [hdata, if_neg (by simp [hts])]
    have hdb : dbUpdateTask tasks p.taskId (taskUpdateData p now) now user =
        some (setTaskRow tasks p.taskId
          ({ t with status := p.status, updated_at := now
                    blocking_reason := none, blocked_by_id := none }),
          { t with status := p.status, updated_at := now
                   blocking_reason := none, blocked_by_id := none }) := by
      simp only [dbUpdateTask, hfind, hrow]
      rw [if_pos (by simp [taskConstraintsOk])]
    refine ⟨?_, rfl⟩
    simp only [updateTaskStatus, hfind]
    rw [if_neg (by simp [hpsb]), if_neg (by simp [hpsb]), if_neg (by simp [hac]), hdb]
    dsimp only
    cases hfid : t.feature_id with
    | none => rfl
    | some fid =>
      dsimp only
      rw [if_neg]
      by_cases hc : p.status = TaskStatus.completed
      · have hf := hnotfull fid hfid hc
        unfold taskFeatureFullyCompleted at hf
        rw [hfid] at hf
        rw [hf]
        simp
      · simp [hc]
  · intro features p now user f bi r hfind hps hbr hbb hrne hbine hbex hts htbr htbb
    have hre : r.isEmpty = false := isEmpty_false_of_ne r hrne
    have hbie : bi.isEmpty = false := isEmpty_false_of_ne bi hbine
    have hpresent : featureBlockedParamsPresent p = true := by
      simp [featureBlockedParamsPresent, hbr, hbb, jsFalsy, hre, hbie]
    have hexists : blockingFeatureExists features p = true := by
      simp [blockingFeatureExists, hbb, hbex]
    have hac : featureAlreadyCurrent f p = true := by
      simp [featureAlreadyCurrent, hts, hps, htbr, htbb, hbr, hbb, jsStrictEq]
    simp only [updateFeatureStatus, hfind]
    rw [if_neg (by simp [hpresent]), if_neg (by simp [hexists]), if_pos hac]
  · intro features p now user f hfind hnb hts hbrn hbbn htbrn htbbn
    have hpsb : (p.status == FeatureStatus.blocked) = false := by
      simp [hnb]
    have hac : featureAlreadyCurrent f p = false := by
      simp [featureAlreadyCurrent, htbbn, hbbn, jsStrictEq]
    have hrow : applyFeatureTrigger f (featureUpdateData p now f) now user =
        { f with status := p.status, updated_at := now
                 blocking_reason := none, blocked_by_id := none } := by
      have hdata : featureUpdateData p now f =
          { f with status := p.status, updated_at := now
                   blocking_reason := none, blocked_by_id := none } := by
        simp [featureUpdateData, hpsb]
      unfold applyFeatureTrigger
      rw [hdata, if_neg (by simp [hts])]
    have hdb : dbUpdateFeature features p.featureId (featureUpdateData p now) now user =
        some (setFeatureRow features p.featureId
          ({ f with status := p.status, updated_at := now
                    blocking_reason := none, blocked_by_id := none }),
          { f with status := p.status, updated_at := now
                   blocking_reason := none, blocked_by_id := none }) := by
      simp only [dbUpdateFeature, hfind, hrow]
      rw [if_pos (by simp [featureConstraintsOk])]
    refine ⟨?_, rfl⟩
    simp only [updateFeatureStatus, hfind]
    rw [if_neg (by simp [hpsb]), if_neg (by simp [hpsb]), if_neg (by simp [hac]), hdb]

/-- Witness for the amended C4: all cases run on concrete fixtures,
including a repeat of `completed` on a task whose feature still holds a
non-completed sibling. -/
theorem claim_C4_witness :
    (updateTaskStatus [exTaskBlocked, exTaskT2]
        { taskId := "T1", status := TaskStatus.blocked
          blockingReason := some "r1", blockedById := some "T2" } 30 "u" =
      ([exTaskBlocked, exTaskT2], .alreadyCurrent)) ∧
    (updateTaskStatus [exTaskT2] { taskId := "T2", status := TaskStatus.ready } 10 "u" =
        (setTaskRow [exTaskT2] "T2"
          { exTaskT2 with status := TaskStatus.ready, updated_at := 10
                          blocking_reason := none, blocked_by_id := none },
         .updated TaskStatus.ready TaskStatus.ready) ∧
      ({ exTaskT2 with status := TaskStatus.ready, updated_at := 10
                       blocking_reason := none, blocked_by_id := none } : TaskRow).status_history
        = exTaskT2.status_history) ∧
    (updateTaskStatus [exTaskCompleted, exTaskOfF1]
        { taskId := "T5", status := TaskStatus.completed } 40 "u" =
        (setTaskRow [exTaskCompleted, exTaskOfF1] "T5"
          { exTaskCompleted with status := TaskStatus.completed, updated_at := 40
                                 blocking_reason := none, blocked_by_id := none },
         .updated TaskStatus.completed TaskStatus.completed) ∧
      ({ exTaskCompleted with status := TaskStatus.completed, updated_at := 40
                              blocking_reason := none, blocked_by_id := none }
        : TaskRow).status_history = exTaskCompleted.status_history) ∧
    (updateFeatureStatus [exFeatureBlocked, exFeatureF2]
        { featureId := "F1", status := FeatureStatus.blocked
          blockingReason := some "fr", blockedById := some "F2" } 30 "u" =
      ([exFeatureBlocked, exFeatureF2], .alreadyCurrent)) ∧
    (updateFeatureStatus [exFreshFeature] { featureId := "F9", status := FeatureStatus.planned }
        10 "u" =
        (setFeatureRow [exFreshFeature] "F9"
          { exFreshFeature with status := FeatureStatus.planned, updated_at := 10
                                blocking_reason := none, blocked_by_id := none },
         .updated FeatureStatus.planned FeatureStatus.planned) ∧
      ({ exFreshFeature with status := FeatureStatus.planned, updated_at := 10
                             blocking_reason := none, blocked_by_id := none }
        : FeatureRow).status_history = exFreshFeature.status_history) :=
  ⟨claim_C4_idempotence.1 [exTaskBlocked, exTaskT2]
      { taskId := "T1", status := TaskStatus.blocked
        blockingReason := some "r1", blockedById := some "T2" } 30 "u" exTaskBlocked "T2" "r1"
      (by decide) rfl rfl rfl (by decide) (by decide) (by decide) rfl rfl rfl,
   claim_C4_idempotence.2.1 [exTaskT2] { taskId := "T2", status := TaskStatus.ready } 10 "u"
      exTaskT2 (by decide) (by decide) rfl rfl rfl rfl rfl
      (by intro fid h hc; simp [exTaskT2] at h),
   claim_C4_idempotence.2.1 [exTaskCompleted, exTaskOfF1]
      { taskId := "T5", status := TaskStatus.completed } 40 "u" exTaskCompleted
      (by decide) (by decide) rfl rfl rfl rfl rfl
      (by intro fid h hc
          simp only [exTaskCompleted] at h
          injection h with h'
          subst h'
          decide),
   claim_C4_idempotence.2.2.1 [exFeatureBlocked, exFeatureF2]
      { featureId := "F1", status := FeatureStatus.blocked
        blockingReason := some "fr", blockedById := some "F2" } 30 "u" exFeatureBlocked "F2" "fr"
      (by decide) rfl rfl rfl (by decide) (by decide) (by decide) rfl rfl rfl,
   claim_C4_idempotence.2.2.2 [exFreshFeature]
      { featureId := "F9", status := FeatureStatus.planned } 10 "u" exFreshFeature
      (by decide) (by decide) rfl rfl rfl rfl rfl⟩

/-- Claim C3 counterexample: the self-blocking attempt
(`status = blocked`, `blockingReason = "x"`, `blockedById` = the task's own
id) does fail — but not through any `SelfBlockingNotAllowed` validation in
the transition engine, which has no such branch: the handler's own checks
all pass (the blocking-task lookup finds the task itself) and the write is
attempted; only the store's `tasks_no_self_blocking` check constraint
rejects it, so the caller sees the generic update-error response. -/
theorem claim_C3_counterexample :
    updateTaskStatus [exTaskT2]
      { taskId := "T2", status := TaskStatus.blocked
        blockingReason := some "x", blockedById := some "T2" } 10 "u" =
      ([exTaskT2], .updateError) ∧
    TaskUpdateResult.updateError ≠ TaskUpdateResult.missingBlockingInfo ∧
    TaskUpdateResult.updateError ≠ TaskUpdateResult.blockingTaskNotFound ∧
    TaskUpdateResult.updateError.isSuccess = false := by
  refine ⟨?_, ?_, ?_, ?_⟩ <;> decide

/-- Claim C3 as amended: a `blocked` transition with both `blockingReason`
and `blockedById` absent always fails with the missing-blocking-info
validation error; a `blocked` transition whose `blockedById` equals the
entity's own id always fails and changes nothing, but via the store's
no-self-blocking check constraint during the update (the generic
update-error response) rather than a dedicated `SelfBlockingNotAllowed`
validation. Same for Features. -/
theorem claim_C3_blocking_validation :
    (∀ (tasks : List TaskRow) (p : UpdateTaskParams) (now : Nat) (user : String) (t : TaskRow),
      tasks.find? (fun x => x.id == p.taskId) = some t →
      p.status = TaskStatus.blocked →
      p.blockingReason = none → p.blockedById = none →
      updateTaskStatus tasks p now user = (tasks, .missingBlockingInfo)) ∧
    (∀ (features : List FeatureRow) (p : UpdateFeatureParams) (now : Nat) (user : String)
       (f : FeatureRow),
      features.find? (fun x => x.id == p.featureId) = some f →
      p.status = FeatureStatus.blocked →
      p.blockingReason = none → p.blockedById = none →
      updateFeatureStatus features p now user = (features, .missingBlockingInfo)) ∧
    (∀ (tasks : List TaskRow) (p : UpdateTaskParams) (now : Nat) (user : String) (t : TaskRow)
       (r : String),
      tasks.find? (fun x => x.id == p.taskId) = some t →
      p.status = TaskStatus.blocked →
      p.blockingReason = some r → r ≠ "" →
      p.blockedById = some p.taskId → p.taskId ≠ "" →
      t.blocked_by_id ≠ some p.taskId →
      updateTaskStatus tasks p now user = (tasks, .updateError)) ∧
    (∀ (features : List FeatureRow) (p : UpdateFeatureParams) (now : Nat) (user : String)
       (f : FeatureRow) (r : String),
      features.find? (fun x => x.id == p.featureId) = some f →
      p.status = FeatureStatus.blocked →
      p.blockingReason = some r → r ≠ "" →
      p.blockedById = some p.featureId → p.featureId ≠ "" →
      f.blocked_by_id ≠ some p.featureId →
      updateFeatureStatus features p now user = (features, .updateError)) := by
  refine ⟨?_, ?_, ?_, ?_⟩
  · intro tasks p now user t hfind hps hbr hbb
    simp only [updateTaskStatus, hfind]
    rw [if_pos]
    simp [hps, taskBlockedParamsPresent, jsFalsy, hbr, hbb]
  · intro features p now user f hfind hps hbr hbb
    simp only [updateFeatureStatus, hfind]
    rw [if_pos]
    simp [hps, featureBlockedParamsPresent, jsFalsy, hbr, hbb]
  · intro tasks p now user t r hfind hps hbr hrne hbb hidne hTbb
    have htid : (t.id == p.taskId) = true := by
      have h := List.find?_some hfind
      simpa using h
    have htid' : t.id = p.taskId := by simpa using htid
    have hpresent : taskBlockedParamsPresent p = true := by
      simp [taskBlockedParamsPresent, hbr, hbb, jsFalsy,
        isEmpty_false_of_ne r hrne, isEmpty_false_of_ne p.taskId hidne]
    have hexists : blockingTaskExists tasks p = true := by
      simp [blockingTaskExists, hbb, hfind]
    have hjs : jsStrictEq t.blocked_by_id p.blockedById = false := by
      rw [hbb]
      cases htb : t.blocked_by_id with
      | none => rfl
      | some x =>
        simp only [jsStrictEq]
        by_cases hx : x = p.taskId
        · exact absurd (by rw [htb, hx]) hTbb
        · simpa using hx
    have hac : taskAlreadyCurrent t p = false := by
      simp [taskAlreadyCurrent, hjs]
    have hbbid : (applyTaskTrigger t (taskUpdateData p now t) now user).blocked_by_id =
        some p.taskId := by
      have hdata : (taskUpdateData p now t).blocked_by_id = some p.taskId := by
        simp [taskUpdateData, hps, hbb]
      unfold applyTaskTrigger
      split <;> simp [taskUpdateData, hps, hbb]
    have hidrow : (applyTaskTrigger t (taskUpdateData p now t) now user).id = p.taskId := by
      rw [applyTaskTrigger_id]
      exact htid'
    have hcon : taskConstraintsOk
        (setTaskRow tasks p.taskId (applyTaskTrigger t (taskUpdateData p now t) now user))
        (applyTaskTrigger t (taskUpdateData p now t) now user) = false := by
      simp [taskConstraintsOk, hbbid, hidrow]
    have hdb : dbUpdateTask tasks p.taskId (taskUpdateData p now) now user = none := by
      simp only [dbUpdateTask, hfind]
      rw [if_neg (by simp [hcon])]
    simp only [updateTaskStatus, hfind]
    rw [if_neg (by simp [hpresent]), if_neg (by simp [hexists]), if_neg (by simp [hac]), hdb]
  · intro features p now user f r hfind hps hbr hrne hbb hidne hTbb
    have htid : (f.id == p.featureId) = true := by
      have h := List.find?_some hfind
      simpa using h
    have htid' : f.id = p.featureId := by simpa using htid
    have hpresent : featureBlockedParamsPresent p = true := by
      simp [featureBlockedParamsPresent, hbr, hbb, jsFalsy,
        isEmpty_false_of_ne r hrne, isEmpty_false_of_ne p.featureId hidne]
    have hexists : blockingFeatureExists features p = true := by
      simp [blockingFeatureExists, hbb, hfind]
    have hjs : jsStrictEq f.blocked_by_id p.blockedById = false := by
      rw [hbb]
      cases htb : f.blocked_by_id with
      | none => rfl
      | some x =>
        simp only [jsStrictEq]
        by_cases hx : x = p.featureId
        · exact absurd (by rw [htb, hx]) hTbb
        · simpa using hx
    have hac : featureAlreadyCurrent f p = false := by
      simp [featureAlreadyCurrent, hjs]
    have hbbid : (applyFeatureTrigger f (featureUpdateData p now f) now user).blocked_by_id =
        some p.featureId := by
      have hdata : (featureUpdateData p now f).blocked_by_id = some p.featureId := by
        simp [featureUpdateData, hps, hbb]
      unfold applyFeatureTrigger
      split <;> simp [featureUpdateData, hps, hbb]
    have hidrow : (applyFeatureTrigger f (featureUpdateData p now f) now user).id =
        p.featureId := by
      rw [applyFeatureTrigger_id]
      exact htid'
    have hcon : featureConstraintsOk
        (setFeatureRow features p.featureId
          (applyFeatureTrigger f (featureUpdateData p now f) now user))
        (applyFeatureTrigger f (featureUpdateData p now f) now user) = false := by
      simp [featureConstraintsOk, hbbid, hidrow]
    have hdb : dbUpdateFeature features p.featureId (featureUpdateData p now) now user = none := by
      simp only [dbUpdateFeature, hfind]
      rw [if_neg (by simp [hcon])]
    simp only [updateFeatureStatus, hfind]
    rw [if_neg (by simp [hpresent]), if_neg (by simp [hexists]), if_neg (by simp [hac]), hdb]

/-- Witness for the amended C3: missing-blocking-info and self-blocking
failures on concrete tasks and features. -/
theorem claim_C3_witness :
    (updateTaskStatus [exTaskT2] { taskId := "T2", status := TaskStatus.blocked } 10 "u" =
      ([exTaskT2], .missingBlockingInfo)) ∧
    (updateFeatureStatus [exFreshFeature] { featureId := "F9", status := FeatureStatus.blocked }
        10 "u" = ([exFreshFeature], .missingBlockingInfo)) ∧
    (updateTaskStatus [exTaskT2]
        { taskId := "T2", status := TaskStatus.blocked
          blockingReason := some "x", blockedById := some "T2" } 11 "u" =
      ([exTaskT2], .updateError)) ∧
    (updateFeatureStatus [exFeatureF2]
        { featureId := "F2", status := FeatureStatus.blocked
          blockingReason := some "y", blockedById := some "F2" } 11 "u" =
      ([exFeatureF2], .updateError)) :=
  ⟨claim_C3_blocking_validation.1 [exTaskT2]
      { taskId := "T2", status := TaskStatus.blocked } 10 "u" exTaskT2
      (by decide) rfl rfl rfl,
   claim_C3_blocking_validation.2.1 [exFreshFeature]
      { featureId := "F9", status := FeatureStatus.blocked } 10 "u" exFreshFeature
      (by decide) rfl rfl rfl,
   claim_C3_blocking_validation.2.2.1 [exTaskT2]
      { taskId := "T2", status := TaskStatus.blocked
        blockingReason := some "x", blockedById := some "T2" } 11 "u" exTaskT2 "x"
      (by decide) rfl rfl (by decide) rfl (by decide) (by decide),
   claim_C3_blocking_validation.2.2.2 [exFeatureF2]
      { featureId := "F2", status := FeatureStatus.blocked
        blockingReason := some "y", blockedById := some "F2" } 11 "u" exFeatureF2 "y"
      (by decide) rfl rfl (by decide) rfl (by decide) (by decide)⟩

/-- Claim C9 (code bug): transitioning the last non-completed task of its
feature to `completed` persists the update and then returns a failure
response. The handler's feature-progress block executes
`nextActions.push(...)` before `let nextActions` is declared; the resulting
temporal-dead-zone `ReferenceError` is caught by the handler's `catch`,
which returns "Task Status Update Failed" — after the update statement has
already committed the new status (with its trigger-written history entry).
The earlier version of the same handler declared `nextActions` before this
block, so the use-before-declaration is a regression slip. -/
theorem claim_C9_partial_apply :
    (updateTaskStatus [exTaskOfF1] { taskId := "T1", status := TaskStatus.completed } 10 "u").2 =
      TaskUpdateResult.caughtReferenceError ∧
    TaskUpdateResult.caughtReferenceError.isSuccess = false ∧
    (updateTaskStatus [exTaskOfF1]
        { taskId := "T1", status := TaskStatus.completed } 10 "u").1.find?
      (fun x => x.id == "T1") =
      some { exTaskOfF1 with
        status := TaskStatus.completed, updated_at := 10, status_updated_at := 10
        status_history := [{ status := TaskStatus.completed, changed_at := 10
                             changed_by := "u", reason := "Status updated" }] } ∧
    exTaskOfF1.status ≠ TaskStatus.completed := by
  refine ⟨?_, ?_, ?_, ?_⟩ <;> decide

/-- A session check succeeds exactly on a found, active session. -/
theorem validateSession_ok (l : List SessionRow) (sid : String) (s : SessionRow)
    (h : validateSession l sid = .ok s) :
    sid.isEmpty = false ∧ l.find? (fun x => x.id == sid) = some s ∧
    s.status = SessionStatus.active := by
  unfold validateSession at h
  by_cases he : sid.isEmpty = true
  · rw [if_pos he] at h; cases h
  · rw [if_neg he] at h
    cases hf : l.find? (fun x => x.id == sid) with
    | none => rw [hf] at h; cases h
    | some s' =>
      rw [hf] at h
      dsimp only at h
      by_cases hst : (s'.status == SessionStatus.active) = true
      · rw [if_pos hst] at h
        injection h with hss
        subst hss
        exact ⟨by simpa using he, rfl, by simpa using hst⟩
      · rw [if_neg hst] at h; cases h

/-- A found but non-active session makes `validateSession` fail with the
"Session is X, not active" error. -/
theorem validateSession_notActive (l : List SessionRow) (sid : String) (s : SessionRow)
    (hne : sid ≠ "") (hf : l.find? (fun x => x.id == sid) = some s)
    (hst : s.status ≠ SessionStatus.active) :
    validateSession l sid = .notActive s.status := by
  unfold validateSession
  rw [if_neg (by simp [isEmpty_false_of_ne sid hne]), hf]
  dsimp only
  rw [if_neg (by simp [hst])]

/-- Replacing rows of the sessions table with an update that preserves a
projection preserves the projected column list. -/
theorem map_setSessionRows {β : Type} (g : SessionRow → β) (l : List SessionRow) (sid : String)
    (f : SessionRow → SessionRow) (h : ∀ s, g (f s) = g s) :
    (setSessionRows l sid f).map g = l.map g := by
  unfold setSessionRows
  rw [List.map_map]
  apply List.map_congr_left
  intro s _
  show g (if (s.id == sid) = true then f s else s) = g s
  split
  · exact h s
  · rfl

/-- Updating the matched row by a key-preserving function moves `find?` to
the updated row. -/
theorem find?_map_update {α : Type} (key : α → String) (id : String) (f : α → α)
    (hf : ∀ a, key (f a) = key a) :
    ∀ (l : List α) (t : α), l.find? (fun a => key a == id) = some t →
      (l.map fun a => if key a == id then f a else a).find? (fun a => key a == id) =
        some (f t) := by
  intro l
  induction l with
  | nil => intro t h; simp at h
  | cons a as ih =>
    intro t h
    by_cases ha : (key a == id) = true
    · have h' : List.find? (fun x => key x == id) (a :: as) = some a :=
        List.find?_cons_of_pos as ha
      rw [h'] at h
      injection h with ht
      subst ht
      simp only [List.map_cons, if_pos ha]
      exact List.find?_cons_of_pos _ (by rw [hf]; exact ha)
    · rw [List.find?_cons_of_neg _ (by simpa using ha)] at h
      simp only [List.map_cons, if_neg ha]
      rw [List.find?_cons_of_neg _ (by simpa using ha)]
      exact ih t h

/-- Claim C6: audit-child operations are only valid on `active` sessions.
Any `recordFileChange`, `createProgressCheckpoint` (with the session id
supplied), `logDecision`, or `createSnapshot` call naming a session whose
status is not `active` (`completed` or `abandoned`) fails with the
"Session is X, not active" validation error and changes nothing; and a
successful `endSession` leaves the session `completed` — so every
subsequent audit-child call on that session id fails that way. -/
theorem claim_C6_terminal_session :
    (∀ (st : SessionStore) (sid : String) (s : SessionRow),
      sid ≠ "" →
      st.sessions.find? (fun x => x.id == sid) = some s →
      s.status ≠ SessionStatus.active →
      (∀ filePath changeType now,
        recordFileChange st sid filePath changeType now =
          (st, .invalidSession (.notActive s.status))) ∧
      (∀ progress changesDescription currentThinking nextSteps,
        createProgressCheckpoint st
          { sessionId := some sid, progress := progress
            changesDescription := changesDescription
            currentThinking := currentThinking, nextSteps := nextSteps } =
          (st, .failed (.notActive s.status))) ∧
      (∀ description reasoning alternatives,
        logDecision st sid description reasoning alternatives =
          (st, .failed (.notActive s.status))) ∧
      (∀ filePath content,
        createSnapshot st sid filePath content = (st, .failed (.notActive s.status)))) ∧
    (∀ (st : SessionStore) (sid summary : String) (now : Nat),
      (endSession st sid summary now).2 = .ended →
      ∃ s', (endSession st sid summary now).1.sessions.find? (fun x => x.id == sid) = some s' ∧
        s'.status = SessionStatus.completed ∧
        s'.end_time = some now ∧ s'.summary = some summary) := by
  constructor
  · intro st sid s hne hfind hstatus
    have hv : validateSession st.sessions sid = .notActive s.status :=
      validateSession_notActive st.sessions sid s hne hfind hstatus
    refine ⟨?_, ?_, ?_, ?_⟩
    · intro filePath changeType now
      unfold recordFileChange recordFileChangeWith
      rw [hv]
    · intro progress changesDescription currentThinking nextSteps
      unfold createProgressCheckpoint
      rw [if_pos (by simp [jsFalsy, isEmpty_false_of_ne sid hne])]
      dsimp only
      rw [hv]
    · intro description reasoning alternatives
      unfold logDecision
      rw [hv]
    · intro filePath content
      unfold createSnapshot
      rw [hv]
  · intro st sid summary now hres
    unfold endSession at hres ⊢
    cases hv : validateSession st.sessions sid with
    | ok s =>
      obtain ⟨hemp, hfind, hact⟩ := validateSession_ok st.sessions sid s hv
      dsimp only
      refine ⟨{ s with status := SessionStatus.completed
                       end_time := some now, summary := some summary }, ?_, rfl, rfl, rfl⟩
      unfold setSessionRows
      exact find?_map_update (fun x => x.id) sid
        (fun r => { r with status := SessionStatus.completed
                           end_time := some now, summary := some summary })
        (fun _ => rfl) st.sessions s hfind
    | noSessionId => rw [hv] at hres; cases hres
    | notFound => rw [hv] at hres; cases hres
    | notActive st' => rw [hv] at hres; cases hres

/-- Witness for C6: end the concrete active session `S1`, then observe all
four audit-child operations fail with the not-active error. -/
theorem claim_C6_witness :
    (endSession exStore "S1" "done" 5000).2 = .ended ∧
    recordFileChange (endSession exStore "S1" "done" 5000).1 "S1" "a.ts" "modified" 6000 =
      ((endSession exStore "S1" "done" 5000).1,
        .invalidSession (.notActive SessionStatus.completed)) ∧
    createProgressCheckpoint (endSession exStore "S1" "done" 5000).1
      { sessionId := some "S1", progress := "p", changesDescription := "c"
        currentThinking := "t", nextSteps := none } =
      ((endSession exStore "S1" "done" 5000).1, .failed (.notActive SessionStatus.completed)) ∧
    logDecision (endSession exStore "S1" "done" 5000).1 "S1" "d" "r" none =
      ((endSession exStore "S1" "done" 5000).1, .failed (.notActive SessionStatus.completed)) ∧
    createSnapshot (endSession exStore "S1" "done" 5000).1 "S1" "a.ts" "x" =
      ((endSession exStore "S1" "done" 5000).1, .failed (.notActive SessionStatus.completed)) := by
  have h := claim_C6_terminal_session.1 (endSession exStore "S1" "done" 5000).1 "S1"
    { exSession with status := SessionStatus.completed
                     end_time := some 5000, summary := some "done" }
    (by decide) (by decide) (by decide)
  exact ⟨by decide, h.1 "a.ts" "modified" 6000, h.2.1 "p" "c" "t" none,
    h.2.2.1 "d" "r" none, h.2.2.2 "a.ts" "x"⟩

/-- Claim C7 counterexample: two identical `createSnapshot` calls persist
exactly one row and the second reports the duplicate — but the duplicate
report is issued through `createResponse(false, "Snapshot Already Exists",
...)`: a failure-flagged response, not a success-with-no-op variant (unlike
the status handlers' success-flagged "already current" response). -/
theorem claim_C7_counterexample :
    (createSnapshot exStore "S1" "a.txt" "hello").2 = .created ∧
    (createSnapshot exStore "S1" "a.txt" "hello").1.snapshots.length = 1 ∧
    createSnapshot (createSnapshot exStore "S1" "a.txt" "hello").1 "S1" "a.txt" "hello" =
      ((createSnapshot exStore "S1" "a.txt" "hello").1, .duplicate) ∧
    SnapshotResult.isSuccess .duplicate = false ∧
    TaskUpdateResult.alreadyCurrent.isSuccess = true := by
  refine ⟨?_, ?_, ?_, ?_, ?_⟩ <;> decide

/-- Claim C7 as amended: for an active session and a `(filePath, content)`
pair with no previously stored snapshot of the same fingerprint, the first
`createSnapshot` persists exactly one row and the second identical call
writes nothing and reports "Snapshot Already Exists" — as a failure-flagged
response (`success = false`), not a success-with-no-op variant. -/
theorem claim_C7_snapshot_dedup (st : SessionStore) (sid filePath content : String)
    (s : SessionRow)
    (hv : validateSession st.sessions sid = .ok s)
    (hnone : st.snapshots.find? (fun sn => sn.session_id == s.id &&
      sn.file_path == filePath && sn.content_hash == contentHash content) = none) :
    (createSnapshot st sid filePath content).2 = .created ∧
    (createSnapshot st sid filePath content).1.snapshots =
      st.snapshots ++ [{ session_id := s.id, file_path := filePath
                         content := content, content_hash := contentHash content }] ∧
    createSnapshot (createSnapshot st sid filePath content).1 sid filePath content =
      ((createSnapshot st sid filePath content).1, .duplicate) ∧
    SnapshotResult.isSuccess .duplicate = false := by
  have hfirst : createSnapshot st sid filePath content =
      ({ st with snapshots := st.snapshots ++
          [{ session_id := s.id, file_path := filePath
             content := content, content_hash := contentHash content }] }, .created) := by
    unfold createSnapshot
    rw [hv]
    dsimp only
    rw [hnone]
  refine ⟨by rw [hfirst], by rw [hfirst], ?_, rfl⟩
  rw [hfirst]
  unfold createSnapshot
  dsimp only
  rw [hv]
  dsimp only
  rw [List.find?_append, hnone]
  have hrow : List.find? (fun sn => sn.session_id == s.id &&
      sn.file_path == filePath && sn.content_hash == contentHash content)
      [({ session_id := s.id, file_path := filePath
          content := content, content_hash := contentHash content } : SnapshotRow)] =
      some { session_id := s.id, file_path := filePath
             content := content, content_hash := contentHash content } :=
    List.find?_cons_of_pos _ (by simp)
  rw [hrow]
  rfl

/-- Witness for the amended C7: concrete duplicate-snapshot pair on the
active session `S1`. -/
theorem claim_C7_witness :
    (createSnapshot exStore "S1" "b.txt" "world").2 = .created ∧
    (createSnapshot exStore "S1" "b.txt" "world").1.snapshots =
      exStore.snapshots ++ [{ session_id := exSession.id, file_path := "b.txt"
                              content := "world", content_hash := contentHash "world" }] ∧
    createSnapshot (createSnapshot exStore "S1" "b.txt" "world").1 "S1" "b.txt" "world" =
      ((createSnapshot exStore "S1" "b.txt" "world").1, .duplicate) ∧
    SnapshotResult.isSuccess .duplicate = false :=
  claim_C7_snapshot_dedup exStore "S1" "b.txt" "world" exSession (by decide) rfl

/-- Claim C8 (code bug): `createProgressCheckpoint` does not match the
specified contract. With `sessionId` absent (the schema marks it optional)
the handler skips session validation entirely and still persists a
session-less Checkpoint row; with a valid active session it persists the
row but leaves the `sessions` table — in particular `last_checkpoint_at`,
which no code in the repository ever writes — completely untouched, so
`checkpointNeeded` keeps measuring from `last_checkpoint_at` only when set
(never, on reachable states) and otherwise from `start_time`. -/
theorem claim_C8_checkpoint_effects :
    (∀ (st : SessionStore) (p : CheckpointParams),
      p.sessionId = none →
      createProgressCheckpoint st p =
        ({ st with checkpoints := st.checkpoints ++
            [{ session_id := none, progress := p.progress
               changes_description := p.changesDescription
               current_thinking := p.currentThinking, next_steps := p.nextSteps }] },
         .created)) ∧
    (∀ (st : SessionStore) (p : CheckpointParams) (sid : String) (s : SessionRow),
      p.sessionId = some sid →
      validateSession st.sessions sid = .ok s →
      (createProgressCheckpoint st p).2 = .created ∧
      (createProgressCheckpoint st p).1.checkpoints =
        st.checkpoints ++ [{ session_id := some s.id, progress := p.progress
                             changes_description := p.changesDescription
                             current_thinking := p.currentThinking
                             next_steps := p.nextSteps }] ∧
      (createProgressCheckpoint st p).1.sessions = st.sessions) ∧
    (∀ (sessions : List SessionRow) (sid : String) (s : SessionRow) (now : Nat),
      sessions.find? (fun x => x.id == sid) = some s →
      s.last_checkpoint_at = none →
      checkpointNeeded sessions sid now = decide ((now : Int) - s.start_time ≥ 180000)) := by
  refine ⟨?_, ?_, ?_⟩
  · intro st p hnone
    unfold createProgressCheckpoint
    rw [hnone]
    rfl
  · intro st p sid s hsome hv
    obtain ⟨hemp, hfind, _⟩ := validateSession_ok st.sessions sid s hv
    have hres : createProgressCheckpoint st p =
        ({ st with checkpoints := st.checkpoints ++
            [{ session_id := some s.id, progress := p.progress
               changes_description := p.changesDescription
               current_thinking := p.currentThinking, next_steps := p.nextSteps }] },
         .created) := by
      unfold createProgressCheckpoint
      rw [hsome]
      dsimp only
      rw [if_pos (by simp [jsFalsy, hemp]), hv]
      dsimp only
      rw [if_pos]
      have hsid : (s.id == sid) = true := by
        have h := List.find?_some hfind
        simpa using h
      rw [show s.id = sid from by simpa using hsid, hfind]
      rfl
    rw [hres]
    exact ⟨rfl, rfl, rfl⟩
  · intro sessions sid s now hfind hlast
    unfold checkpointNeeded
    rw [hfind]
    dsimp only
    rw [hlast]
    rfl

/-- Witness for C8: a session-less checkpoint call on the concrete store,
a checkpoint on the active session `S1` (the sessions table is unchanged:
`last_checkpoint_at` stays null), and the `checkpointNeeded` measure from
`start_time`. -/
theorem claim_C8_witness :
    (createProgressCheckpoint exStore
      { sessionId := none, progress := "p", changesDescription := "c"
        currentThinking := "t", nextSteps := none } =
      ({ exStore with checkpoints := exStore.checkpoints ++
          [{ session_id := none, progress := "p", changes_description := "c"
             current_thinking := "t", next_steps := none }] }, .created)) ∧
    ((createProgressCheckpoint exStore
        { sessionId := some "S1", progress := "p", changesDescription := "c"
          currentThinking := "t", nextSteps := none }).2 = .created ∧
     (createProgressCheckpoint exStore
        { sessionId := some "S1", progress := "p", changesDescription := "c"
          currentThinking := "t", nextSteps := none }).1.checkpoints =
       exStore.checkpoints ++ [{ session_id := some exSession.id, progress := "p"
                                 changes_description := "c", current_thinking := "t"
                                 next_steps := none }] ∧
     (createProgressCheckpoint exStore
        { sessionId := some "S1", progress := "p", changesDescription := "c"
          currentThinking := "t", nextSteps := none }).1.sessions = exStore.sessions) ∧
    checkpointNeeded [exSession] "S1" 200000 =
      decide ((200000 : Int) - exSession.start_time ≥ 180000) :=
  ⟨claim_C8_checkpoint_effects.1 exStore
      { sessionId := none, progress := "p", changesDescription := "c"
        currentThinking := "t", nextSteps := none } rfl,
   claim_C8_checkpoint_effects.2.1 exStore
      { sessionId := some "S1", progress := "p", changesDescription := "c"
        currentThinking := "t", nextSteps := none } "S1" exSession rfl (by decide),
   claim_C8_checkpoint_effects.2.2 [exSession] "S1" exSession 200000 (by decide) rfl⟩

/-- Claim C5 (code bug): no compliance decay can occur. On the concrete
active session with score 100, `recordFileChange` records the change and
reports score 100; no ScopeValidation row is written and the score is
untouched, because `verifyScopeCompliance` is a stub that returns
`compliant: true` for every existing session — and the violation branch's
decrement is itself broken (it passes the rpc builder for the nonexistent
`decrement_compliance_score` function as the update value). -/
theorem claim_C5_no_compliance_decay :
    recordFileChange exStore "S1" "src/checkout.ts" "modified" 2000 =
      ({ exStore with
         file_changes := [{ session_id := "S1", file_path := "src/checkout.ts"
                            change_type := "modified", timestamp := 2000 }]
         sessions := [{ exSession with last_file_change_at := some 2000 }] },
       .recorded 100 false) ∧
    (recordFileChange exStore "S1" "src/checkout.ts" "modified" 2000).1.scope_validations
      = [] ∧
    (verifyScopeCompliance exStore.sessions "S1" "src/checkout.ts" "modified").compliant
      = true := by
  refine ⟨?_, ?_, ?_⟩ <;> decide

/-- Claim C10: `verifyScopeCompliance` returns `compliant = true` for every
existing session, so `recordFileChange` can never take its scope-violation
branch: it never writes a ScopeValidation row and never changes any
session's `compliance_score`. -/
theorem claim_C10_scope_check_vacuous (st : SessionStore)
    (sid filePath changeType : String) (now : Nat) :
    ((st.sessions.find? (fun x => x.id == sid)).isSome = true →
      verifyScopeCompliance st.sessions sid filePath changeType = { compliant := true }) ∧
    (recordFileChange st sid filePath changeType now).1.scope_validations =
      st.scope_validations ∧
    (recordFileChange st sid filePath changeType now).1.sessions.map
      (fun s => s.compliance_score) = st.sessions.map (fun s => s.compliance_score) ∧
    (recordFileChange st sid filePath changeType now).2 ≠ .scopeViolation := by
  have hscope : ∀ s, st.sessions.find? (fun x => x.id == sid) = some s →
      verifyScopeCompliance st.sessions sid filePath changeType = { compliant := true } := by
    intro s hf
    unfold verifyScopeCompliance
    rw [hf]
  refine ⟨?_, ?_⟩
  · intro hsome
    cases hf : st.sessions.find? (fun x => x.id == sid) with
    | none => rw [hf] at hsome; cases hsome
    | some s => exact hscope s hf
  · unfold recordFileChange recordFileChangeWith
    cases hv : validateSession st.sessions sid with
    | ok s =>
      obtain ⟨hemp, hfind, hact⟩ := validateSession_ok st.sessions sid s hv
      rw [hscope s hfind]
      dsimp only
      refine ⟨rfl, ?_, by simp⟩
      exact map_setSessionRows (fun s => s.compliance_score) st.sessions sid
        (fun s => { s with last_file_change_at := some now }) (fun _ => rfl)
    | noSessionId => exact ⟨rfl, rfl, by simp⟩
    | notFound => exact ⟨rfl, rfl, by simp⟩
    | notActive st' => exact ⟨rfl, rfl, by simp⟩

/-- Witness for C10: the concrete store with active session `S1`. -/
theorem claim_C10_witness :
    verifyScopeCompliance exStore.sessions "S1" "x.ts" "created" = { compliant := true } ∧
    (recordFileChange exStore "S1" "x.ts" "created" 3000).1.scope_validations =
      exStore.scope_validations ∧
    (recordFileChange exStore "S1" "x.ts" "created" 3000).1.sessions.map
      (fun s => s.compliance_score) = exStore.sessions.map (fun s => s.compliance_score) ∧
    (recordFileChange exStore "S1" "x.ts" "created" 3000).2 ≠ .scopeViolation :=
  ⟨(claim_C10_scope_check_vacuous exStore "S1" "x.ts" "created" 3000).1 (by decide),
   (claim_C10_scope_check_vacuous exStore "S1" "x.ts" "created" 3000).2.1,
   (claim_C10_scope_check_vacuous exStore "S1" "x.ts" "created" 3000).2.2.1,
   (claim_C10_scope_check_vacuous exStore "S1" "x.ts" "created" 3000).2.2.2⟩
